import Mathlib

/-!
Verification development for the FantaGal native audio core
(`app/src/main/cpp`).  The C++ sources are shallowly embedded: each engine's
per-sample state machines become pure Lean functions over `ℚ` (the float
arithmetic of the source is idealised as exact rational arithmetic), and the
transcendental library calls (`sin`, `cos`, `exp`, `tanh`, `powf`) that the
source uses only to fill coefficient fields or to shape isolated output
branches are abstracted as a `MathOracle` parameter, exactly where the C code
calls `<cmath>`.
-/

namespace FantaGal

/-- `SynthState` (SynthState.h): five normalized control floats. -/
structure SynthState where
  pressure : ℚ
  resonance : ℚ
  viscosity : ℚ
  turbulence : ℚ
  diffusion : ℚ
deriving Repr, DecidableEq

/-- `std::clamp(v, lo, hi)`: `lo` if `v < lo`, `hi` if `hi < v`, else `v`. -/
def clampQ (v lo hi : ℚ) : ℚ :=
  if v < lo then lo else if hi < v then hi else v

/-- Abstraction of the `<cmath>` calls the C++ sources use (float `sin`,
`cos`, `exp`, `tanh`, `pow`).  Definitions take the oracle as a parameter in
exactly the places the source calls the math library. -/
structure MathOracle where
  sin : ℚ → ℚ
  cos : ℚ → ℚ
  exp : ℚ → ℚ
  tanh : ℚ → ℚ
  pow : ℚ → ℚ → ℚ

/-- A degenerate oracle (all math-library calls return 0), used to build
closed concrete states whenever the oracle value provably does not matter. -/
def zeroOracle : MathOracle :=
  ⟨fun _ => 0, fun _ => 0, fun _ => 0, fun _ => 0, fun _ _ => 0⟩

/-! ## CriosferaEngine (engines/CriosferaEngine.cpp) -/

namespace Criosfera

/-- Per-voice state of `CriosferaEngine` (CriosferaEngine.h `struct Voice`).
The two-float filter-state arrays are pairs. -/
structure Voice where
  id : ℤ
  frequency : ℚ
  velocity : ℚ
  active : Bool
  releasing : Bool
  sawPhase : ℚ
  triPhase : ℚ
  sawDetune : ℚ
  triDetune : ℚ
  noiseFilterState : ℚ × ℚ
  filterFreq : ℚ
  filterTarget : ℚ
  filterState : ℚ × ℚ
  envelopeLevel : ℚ
  envelopeStage : ℤ
  releaseTime : ℚ
deriving Repr, DecidableEq

/-- Default-constructed `Voice` (member initialisers of CriosferaEngine.h). -/
def Voice.default : Voice :=
  { id := -1, frequency := 0, velocity := 0, active := false,
    releasing := false, sawPhase := 0, triPhase := 0, sawDetune := 0,
    triDetune := 0, noiseFilterState := (0, 0), filterFreq := 0,
    filterTarget := 0, filterState := (0, 0), envelopeLevel := 0,
    envelopeStage := 0, releaseTime := 1 }

/-- `CriosferaEngine::processEnvelope` (CriosferaEngine.cpp:132-156).
`sampleRate` is the prepared sample rate; one call advances the envelope by
one sample. -/
def processEnvelope (sampleRate : ℚ) (v : Voice) : Voice :=
  let sampleTime : ℚ := 1 / sampleRate
  if v.envelopeStage = 1 then
    let lvl := v.envelopeLevel + sampleTime / 0.05
    if 1 ≤ lvl then { v with envelopeLevel := 1, envelopeStage := 2 }
    else { v with envelopeLevel := lvl }
  else if v.envelopeStage = 2 then v
  else if v.envelopeStage = 3 then
    let lvl := v.envelopeLevel - sampleTime / v.releaseTime
    if lvl ≤ 0 then
      { v with envelopeLevel := 0, envelopeStage := 0, active := false }
    else { v with envelopeLevel := lvl }
  else v

/-- Global coefficient set computed by `CriosferaEngine::updateParameters`
(CriosferaEngine.cpp:227-255). -/
structure Params where
  masterGain : ℚ
  filterCutoff : ℚ
  filterQ : ℚ
  delayFeedback : ℚ
  lfoSpeed : ℚ
  lfoFilterDepth : ℚ
  delayTime : ℚ
  reverbMix : ℚ
  reverbDecay : ℚ
  releaseTime : ℚ
deriving Repr, DecidableEq

/-- `CriosferaEngine::updateParameters` (CriosferaEngine.cpp:227-255): maps
the raw control state to engine coefficients.  Only the filter cutoff is
clamped. -/
def updateParameters (s : SynthState) : Params :=
  { masterGain := 0.3 + s.pressure * 0.7,
    filterCutoff := clampQ (12000 - s.viscosity * 11500) 150 12000,
    filterQ := 1 + s.resonance * 10,
    delayFeedback := 0.15 + s.resonance * 0.7,
    lfoSpeed := 0.1 + s.turbulence * 12,
    lfoFilterDepth := 100 + s.turbulence * 3000,
    delayTime := 0.1 + s.diffusion * 2.5,
    reverbMix := 0.25 + s.diffusion * 0.65,
    reverbDecay := 0.65 + s.diffusion * 0.3,
    releaseTime := 1 + s.viscosity * 2 }

/-- Voice-steal selection of `CriosferaEngine::playNote`
(CriosferaEngine.cpp:257-279): first inactive voice, else first releasing
voice, else slot 0. -/
def stealIndex (voices : List Voice) : ℕ :=
  match voices.findIdx? (fun v => !v.active) with
  | some i => i
  | none =>
    match voices.findIdx? (fun v => v.releasing) with
    | some i => i
    | none => 0

/-- Field updates `CriosferaEngine::playNote` applies to the chosen voice
(CriosferaEngine.cpp:280-303).  `n1 n2` are the two `generateNoise()` draws,
`viscosity` is `currentState_.viscosity`. -/
def noteOnVoice (noteId : ℤ) (frequency velocity n1 n2 viscosity : ℚ)
    (v : Voice) : Voice :=
  { v with
    id := noteId, frequency := frequency, velocity := velocity,
    active := true, releasing := false,
    sawDetune := n1 * 0.5 * 0.01,
    triDetune := (n2 * 0.5 - 0.3) * 0.02,
    sawPhase := 0, triPhase := 0,
    noiseFilterState := (0, 0), filterState := (0, 0),
    filterFreq := frequency * 1,
    filterTarget := frequency * 4,
    envelopeLevel := 0, envelopeStage := 1,
    releaseTime := 1 + viscosity * 2 }

/-- `CriosferaEngine::playNote` (CriosferaEngine.cpp:257-305): returns the
updated pool, the note id handed out, and the next fresh id. -/
def playNote (voices : List Voice) (nextNoteId : ℤ)
    (frequency velocity n1 n2 viscosity : ℚ) :
    List Voice × ℤ × ℤ :=
  let i := stealIndex voices
  (voices.set i (noteOnVoice nextNoteId frequency velocity n1 n2 viscosity
      (voices.getD i Voice.default)),
   nextNoteId, nextNoteId + 1)

end Criosfera

/-! ## BreitemaEngine (engines/BreitemaEngine.cpp) -/

namespace Breitema

/-- Parameter mapping of `BreitemaEngine::updateParameters`
(BreitemaEngine.cpp:153-171). -/
structure Params where
  tempo : ℚ
  fmDepth : ℚ
  fogDensity : ℚ
  fogMovement : ℚ
  reverbMix : ℚ
deriving Repr, DecidableEq

/-- `BreitemaEngine::updateParameters` (BreitemaEngine.cpp:153-171): raw
affine maps, no clamping. -/
def updateParameters (s : SynthState) : Params :=
  { tempo := 60 + s.pressure * 120,
    fmDepth := s.resonance * 500,
    fogDensity := 0.2 + s.viscosity * 0.8,
    fogMovement := s.turbulence * 2,
    reverbMix := s.diffusion * 0.6 }

/-- Number of steps per beat used by `BreitemaEngine::advanceStep`
(BreitemaEngine.cpp:145-146): 3 in muineira (mode 1), else 4. -/
def stepsPerBeat (rhythmMode : ℤ) : ℚ :=
  if rhythmMode = 1 then 3 else 4

/-- `BreitemaEngine::advanceStep` (BreitemaEngine.cpp:144-151) acting on
`(nextStepTimeSamples_, currentStep_)`.  Returns the new pair together with
the recomputed `samplesPerStep_`. -/
def advanceStep (rhythmMode : ℤ) (tempo sampleRate : ℚ)
    (nextStepTimeSamples : ℚ) (currentStep : ℤ) : ℚ × ℤ × ℚ :=
  let samplesPerStep := 60 / tempo / stepsPerBeat rhythmMode * sampleRate
  (nextStepTimeSamples + samplesPerStep, (currentStep + 1) % 16,
   samplesPerStep)

/-- Per-voice state of `BreitemaEngine` (BreitemaEngine.h `struct FMVoice`). -/
structure FMVoice where
  active : Bool
  carrierPhase : ℚ
  modulatorPhase : ℚ
  frequency : ℚ
  envTime : ℚ
  duration : ℚ
  gain : ℚ
deriving Repr, DecidableEq

/-- `BreitemaEngine::playFMNote` (BreitemaEngine.cpp:128-142): activates the
first inactive voice; when every voice is active it does nothing (the trigger
is dropped). -/
def playFMNote (voices : List FMVoice) (freq tempo : ℚ) : List FMVoice :=
  match voices.findIdx? (fun v => !v.active) with
  | some i =>
    voices.set i
      { active := true, frequency := freq, carrierPhase := 0,
        modulatorPhase := 0, envTime := 0, duration := 60 / tempo / 2,
        gain := 0.5 }
  | none => voices

/-- `BreitemaEngine::playNote` (BreitemaEngine.cpp:238): constant 0, touches
no voice. -/
def playNote (frequency velocity : ℚ) : ℤ := 0

end Breitema

/-! ## GearheartEngine (engines/GearheartEngine.cpp) -/

namespace Gearheart

/-- The `TWO_PI` float constant of the C++ sources (GearheartEngine.h). -/
def twoPi : ℚ := 6.28318530718

/-- Instrument classes (GearheartEngine.h `enum class InstrumentType`). -/
inductive InstrumentType where
  | kick | tom | hihat | snare
deriving Repr, DecidableEq

/-- Per-voice state of `GearheartEngine` (GearheartEngine.h
`struct GearVoice`); the two-float noise-filter state is a pair. -/
structure GearVoice where
  active : Bool
  type : InstrumentType
  frequency : ℚ
  phase : ℚ
  phase2 : ℚ
  envLevel : ℚ
  envDecay : ℚ
  envTime : ℚ
  noiseFilterState : ℚ × ℚ
  gain : ℚ
deriving Repr, DecidableEq

/-- Gear state used by the audio loop (GearheartEngine.h `struct AudioGear`,
restricted to the fields `process`/`triggerSound` read). -/
structure AudioGear where
  id : ℤ
  speed : ℚ
  isConnected : Bool
  material : ℤ
  radius : ℚ
  depth : ℤ
  angle : ℚ
  lastRotation : ℤ
deriving Repr, DecidableEq

/-- `GearheartEngine::updateParameters` (GearheartEngine.cpp:40-50): master
gain only, `0.35 + pressure * 0.4`, unclamped. -/
def masterGainOf (pressure : ℚ) : ℚ := 0.35 + pressure * 0.4

/-- Voice-steal selection of `GearheartEngine::triggerSound`
(GearheartEngine.cpp:145-156): first inactive voice, else slot 0. -/
def stealIndex (voices : List GearVoice) : ℕ :=
  match voices.findIdx? (fun v => !v.active) with
  | some i => i
  | none => 0

/-- Instrument selection and envelope-decay assignment performed by
`GearheartEngine::triggerSound` (GearheartEngine.cpp:158-204) on the stolen
voice.  `jitterNoise` is the `generateNoise()` draw; `viscosity` and
`turbulence` are the engine parameters; `depthPow` is the float value of
`std::pow(0.85f, depth)` (a math-library call, hence oracle-supplied). -/
def triggeredVoice (gear : AudioGear) (viscosity turbulence jitterNoise
    depthPow : ℚ) (v : GearVoice) : GearVoice :=
  let attenuation := max 0.2 depthPow
  let baseDecayFactor := 0.2 + viscosity * 1.5
  let jitter := jitterNoise * turbulence * 0.4
  let decayScale := max 0.1 (baseDecayFactor + jitter)
  let v := { v with active := true, envTime := 0, envLevel := 0, phase := 0,
                    phase2 := 0, gain := attenuation }
  if gear.id = 0 then
    { v with type := InstrumentType.kick,
             envDecay := 0.3 * max 0.5 decayScale }
  else if gear.material = 4 then
    { v with type := InstrumentType.hihat, envDecay := 0.05 * decayScale }
  else if gear.material = 3 then
    { v with type := InstrumentType.snare, envDecay := 0.15 * decayScale }
  else
    let norm := clampQ (1 - (gear.radius - 20) / 100) 0 1
    { v with type := InstrumentType.tom, frequency := 80 + norm * 200,
             envDecay := 0.2 * decayScale }

/-- `GearheartEngine::triggerSound` (GearheartEngine.cpp:145-205): steal a
voice and (re)initialise it; allocation never fails. -/
def triggerSound (voices : List GearVoice) (gear : AudioGear)
    (viscosity turbulence jitterNoise depthPow : ℚ) : List GearVoice :=
  let i := stealIndex voices
  voices.set i (triggeredVoice gear viscosity turbulence jitterNoise depthPow
    (voices.getD i { active := false, type := InstrumentType.tom,
                     frequency := 0, phase := 0, phase2 := 0, envLevel := 0,
                     envDecay := 0, envTime := 0, noiseFilterState := (0, 0),
                     gain := 1 }))

/-- One sample of the gear-rotation update in `GearheartEngine::process`
(GearheartEngine.cpp:91-113) for a single connected gear with
`|speed| > 0.0001`: accumulate the angle by `speed * 60 * (1/sampleRate)` and
report whether `floor(angle / TWO_PI)` moved (which fires `triggerSound`). -/
def gearStep (speed sampleRate : ℚ) (angle : ℚ) (lastRotation : ℤ) :
    ℚ × ℤ × Bool :=
  let speedPerSample := speed * 60 * (1 / sampleRate)
  let angle := angle + speedPerSample
  let currentRotation : ℤ := ⌊angle / twoPi⌋
  if currentRotation ≠ lastRotation then (angle, currentRotation, true)
  else (angle, lastRotation, false)

/-- Running state for iterating `gearStep`: the gear's angle, its
`lastRotation` marker, and the number of `triggerSound` firings so far. -/
structure GearRun where
  angle : ℚ
  lastRotation : ℤ
  triggers : ℕ
deriving Repr, DecidableEq

/-- Iterate the per-sample gear update `n` samples, counting triggers. -/
def gearRun (speed sampleRate : ℚ) : ℕ → GearRun → GearRun
  | 0, st => st
  | n + 1, st =>
    let (a, r, fired) := gearStep speed sampleRate st.angle st.lastRotation
    gearRun speed sampleRate n
      { angle := a, lastRotation := r,
        triggers := st.triggers + (if fired then 1 else 0) }

/-- `GearheartEngine::playNote` (GearheartEngine.cpp:394-396): constant 0. -/
def playNote (frequency velocity : ℚ) : ℤ := 0

end Gearheart

/-! ## DSP primitives (engines/DSPComponents.h) -/

/-- The `M_PI` double constant used by DSPComponents.h. -/
def piM : ℚ := 3.14159265358979323846

/-- State and coefficients of the biquad filters of DSPComponents.h
(`BandpassFilter` / `HighPassFilter` share this layout). -/
structure Biquad where
  b0 : ℚ
  b1 : ℚ
  b2 : ℚ
  a1 : ℚ
  a2 : ℚ
  x1 : ℚ
  x2 : ℚ
  y1 : ℚ
  y2 : ℚ
deriving Repr, DecidableEq

/-- Default-constructed biquad (all signal state zero). -/
def Biquad.zero : Biquad :=
  { b0 := 0, b1 := 0, b2 := 0, a1 := 0, a2 := 0,
    x1 := 0, x2 := 0, y1 := 0, y2 := 0 }

/-- `BandpassFilter::process` / `HighPassFilter::process`
(DSPComponents.h:37-44, 77-84): direct-form-I biquad step. -/
def Biquad.processB (f : Biquad) (input : ℚ) : ℚ × Biquad :=
  let output := f.b0 * input + f.b1 * f.x1 + f.b2 * f.x2
                - f.a1 * f.y1 - f.a2 * f.y2
  (output, { f with x2 := f.x1, x1 := input, y2 := f.y1, y1 := output })

/-- `BandpassFilter::setCoefficients` (DSPComponents.h:16-35); the filter
signal state is preserved, only the coefficients change. -/
def Biquad.setBandpass (O : MathOracle) (freq q sampleRate : ℚ)
    (f : Biquad) : Biquad :=
  let q := max q 0.01
  let w0 := 2 * piM * freq / sampleRate
  let alpha := O.sin w0 / (2 * q)
  let cosw0 := O.cos w0
  let a0 := 1 + alpha
  { f with b0 := alpha / a0, b1 := 0 / a0, b2 := -alpha / a0,
           a1 := -2 * cosw0 / a0, a2 := (1 - alpha) / a0 }

/-- `HighPassFilter::setCoefficients` (DSPComponents.h:57-75). -/
def Biquad.setHighpass (O : MathOracle) (freq q sampleRate : ℚ)
    (f : Biquad) : Biquad :=
  let q := max q 0.01
  let w0 := 2 * piM * freq / sampleRate
  let alpha := O.sin w0 / (2 * q)
  let cosw0 := O.cos w0
  let a0 := 1 + alpha
  { f with b0 := (1 + cosw0) / 2 / a0, b1 := -(1 + cosw0) / a0,
           b2 := (1 + cosw0) / 2 / a0,
           a1 := -2 * cosw0 / a0, a2 := (1 - alpha) / a0 }

/-- `EnvelopeFollower` (DSPComponents.h:95-132): asymmetric one-pole
smoother; `attack`/`release` are the stored per-sample decay coefficients. -/
structure EnvelopeFollower where
  sampleRate : ℚ
  attack : ℚ
  release : ℚ
  envelope : ℚ
deriving Repr, DecidableEq

/-- `EnvelopeFollower::process` (DSPComponents.h:115-123). -/
def EnvelopeFollower.processE (e : EnvelopeFollower) (input : ℚ) :
    ℚ × EnvelopeFollower :=
  let rectified := |input|
  let env :=
    if rectified > e.envelope then
      e.attack * e.envelope + (1 - e.attack) * rectified
    else
      e.release * e.envelope + (1 - e.release) * rectified
  (env, { e with envelope := env })

/-- `EnvelopeFollower::setRelease` (DSPComponents.h:111-113). -/
def EnvelopeFollower.setRelease (O : MathOracle) (releaseMs : ℚ)
    (e : EnvelopeFollower) : EnvelopeFollower :=
  { e with release := O.exp (-1 / (e.sampleRate * releaseMs * 0.001)) }

/-- Fresh `EnvelopeFollower(sampleRate)` (DSPComponents.h:99-105): 2 ms
attack, 30 ms release. -/
def EnvelopeFollower.init (O : MathOracle) (sampleRate : ℚ) :
    EnvelopeFollower :=
  { sampleRate := sampleRate,
    attack := O.exp (-1 / (sampleRate * 2 * 0.001)),
    release := O.exp (-1 / (sampleRate * 30 * 0.001)),
    envelope := 0 }

/-- `ParameterSmoother` (DSPComponents.h:137-159): one-pole low-pass toward
a target. -/
structure ParameterSmoother where
  alpha : ℚ
  current : ℚ
  target : ℚ
deriving Repr, DecidableEq

/-- `ParameterSmoother::process` (DSPComponents.h:148-151). -/
def ParameterSmoother.processS (s : ParameterSmoother) :
    ℚ × ParameterSmoother :=
  let c := s.alpha * s.current + (1 - s.alpha) * s.target
  (c, { s with current := c })

/-- `ParameterSmoother::setTarget` (DSPComponents.h:146). -/
def ParameterSmoother.setTarget (s : ParameterSmoother) (t : ℚ) :
    ParameterSmoother :=
  { s with target := t }

/-! ## VocoderProcessor (engines/VocoderProcessor.cpp) -/

namespace Vocoder

/-- `VocoderProcessor::kBandFrequencies` (VocoderProcessor.h): the 20 band
center frequencies. -/
def kBandFrequencies : List ℚ :=
  [120, 180, 280, 380, 500, 650, 850, 1100, 1450, 1800,
   2200, 2700, 3400, 4200, 5200, 6500, 8000, 10000, 13000, 16000]

/-- One analysis/synthesis band (VocoderProcessor.h `struct Band`). -/
structure Band where
  modFilter : Biquad
  carFilter : Biquad
  envelope : EnvelopeFollower
  frequency : ℚ
deriving Repr, DecidableEq

/-- Full `VocoderProcessor` state (VocoderProcessor.h). -/
structure Processor where
  sampleRate : ℚ
  bands : List Band
  modHPF : Biquad
  globalMod : EnvelopeFollower
  sIntensity : ParameterSmoother
  sResonance : ParameterSmoother
  sNoiseThreshold : ParameterSmoother
  sMix : ParameterSmoother
  sDiffusion : ParameterSmoother
  lastRes : ℚ
  lastDiff : ℚ
deriving Repr, DecidableEq

/-- `VocoderProcessor::VocoderProcessor` (VocoderProcessor.cpp:8-26) together
with `setupBands` (VocoderProcessor.cpp:28-39).  Every smoother gets the
30 ms time constant `exp(-1/(sampleRate*30*0.001))`. -/
def Processor.init (O : MathOracle) (sampleRate : ℚ) : Processor :=
  let tcAlpha := O.exp (-1 / (sampleRate * 30 * 0.001))
  { sampleRate := sampleRate,
    bands := kBandFrequencies.map (fun f =>
      { modFilter := Biquad.setBandpass O f 18 sampleRate Biquad.zero,
        carFilter := Biquad.setBandpass O f 18 sampleRate Biquad.zero,
        envelope := EnvelopeFollower.init O sampleRate,
        frequency := f }),
    modHPF := Biquad.setHighpass O 100 0.707 sampleRate Biquad.zero,
    globalMod := EnvelopeFollower.init O sampleRate,
    sIntensity := { alpha := tcAlpha, current := 1.5, target := 1.5 },
    sResonance := { alpha := tcAlpha, current := 18, target := 18 },
    sNoiseThreshold := { alpha := tcAlpha, current := 0.012, target := 0.012 },
    sMix := { alpha := tcAlpha, current := 0.5, target := 0.5 },
    sDiffusion := { alpha := tcAlpha, current := 0.5, target := 0.5 },
    lastRes := -1, lastDiff := -1 }

/-- The master noise gate of `VocoderProcessor::process`
(VocoderProcessor.cpp:85-91): 0 below half the threshold, a linear ramp up to
the threshold, 1 above it. -/
def masterGate (globalEnv threshold : ℚ) : ℚ :=
  if globalEnv < threshold * 0.5 then 0
  else if globalEnv < threshold then
    (globalEnv - threshold * 0.5) / (threshold * 0.5)
  else 1

/-- Per-band work when the master gate is open
(VocoderProcessor.cpp:93-117): analyse the modulator, track its envelope,
filter the carrier, soft-gate, and accumulate with Q gain compensation. -/
def bandOpen (modSample carSample intensity threshold resonance : ℚ)
    (acc : ℚ) (b : Band) : ℚ × Band :=
  let (filteredMod, mf) := b.modFilter.processB modSample
  let (envelope, ef) := b.envelope.processE filteredMod
  let (filteredCar, cf) := b.carFilter.processB carSample
  let gain :=
    if envelope > threshold then 1
    else if envelope > threshold * 0.4 then
      let g := (envelope - threshold * 0.4) / (threshold * 0.6)
      g * g
    else 0
  let qComp := 1 / (1 + max 0 (25 - resonance) * 0.15)
  (acc + filteredCar * envelope * intensity * gain * qComp,
   { b with modFilter := mf, carFilter := cf, envelope := ef })

/-- Wet/dry gain pair of the final blend (VocoderProcessor.cpp:131-146):
constant at the extremes, power-law (`powf`, oracle-supplied) in between. -/
def wetDryGains (O : MathOracle) (mix : ℚ) : ℚ × ℚ :=
  if mix > 0.98 then (1, 0)
  else if mix < 0.02 then (0, 1)
  else (O.pow mix 0.25, O.pow (1 - mix) 1.5)

/-- The ±0.8 soft-knee clipper of VocoderProcessor.cpp:150-155. -/
def softClip08 (O : MathOracle) (x : ℚ) : ℚ :=
  if x > 0.8 then 0.8 + 0.2 * O.tanh ((x - 0.8) * 5)
  else if x < -0.8 then -0.8 + 0.2 * O.tanh ((x + 0.8) * 5)
  else x

/-- One loop iteration of `VocoderProcessor::process`
(VocoderProcessor.cpp:41-158): smoothers, hysteresis-guarded coefficient
updates, modulator pre-gain + HPF, global envelope, master gate, band bank,
wet/dry blend, soft clip.  Returns the output sample and the new state.
(The hysteresis updates re-derive coefficients from each band's stored
center `frequency`, which `setupBands` made equal to `kBandFrequencies[i]`
and nothing ever changes.) -/
def Processor.processFrame (O : MathOracle) (st : Processor)
    (modIn carIn : ℚ) : ℚ × Processor :=
  let rI := st.sIntensity.processS
  let intensity := rI.1
  let rR := st.sResonance.processS
  let resonance := rR.1
  let rT := st.sNoiseThreshold.processS
  let threshold := rT.1
  let rM := st.sMix.processS
  let mix := rM.1
  let bands1 :=
    if |resonance - st.lastRes| > 0.5 then
      st.bands.map (fun b =>
        { b with
          modFilter :=
            Biquad.setBandpass O b.frequency resonance st.sampleRate
              b.modFilter,
          carFilter :=
            Biquad.setBandpass O b.frequency resonance st.sampleRate
              b.carFilter })
    else st.bands
  let lastRes1 :=
    if |resonance - st.lastRes| > 0.5 then resonance else st.lastRes
  let rD := st.sDiffusion.processS
  let diffusion := rD.1
  let bands2 :=
    if |diffusion - st.lastDiff| > 0.02 then
      bands1.map (fun b =>
        { b with envelope := b.envelope.setRelease O (15 + diffusion * 135) })
    else bands1
  let lastDiff1 :=
    if |diffusion - st.lastDiff| > 0.02 then diffusion else st.lastDiff
  let rHPF := st.modHPF.processB (modIn * 4)
  let modSample := rHPF.1
  let rGM := st.globalMod.processE modSample
  let globalEnv := rGM.1
  let carSample := carIn
  let gate := masterGate globalEnv threshold
  let bandResults :=
    if gate > 0 then
      bands2.foldl (fun (p : ℚ × List Band) b =>
        ((bandOpen modSample carSample intensity threshold resonance p.1
            b).1,
         p.2 ++ [(bandOpen modSample carSample intensity threshold resonance
            p.1 b).2])) (0, [])
    else
      (0, bands2.map (fun b =>
        { b with carFilter := (b.carFilter.processB carSample).2,
                 modFilter := (b.modFilter.processB modSample).2 }))
  let vocodeOutput := bandResults.1 * (2.5 * gate)
  let wd := wetDryGains O mix
  let finalOut := softClip08 O (vocodeOutput * wd.1 + carSample * wd.2)
  (finalOut,
   { st with bands := bandResults.2, modHPF := rHPF.2, globalMod := rGM.2,
             sIntensity := rI.2, sResonance := rR.2, sNoiseThreshold := rT.2,
             sMix := rM.2, sDiffusion := rD.2,
             lastRes := lastRes1, lastDiff := lastDiff1 })

/-- `VocoderProcessor::setIntensity` (VocoderProcessor.cpp:161-165). -/
def Processor.setIntensity (p : Processor) (intensity : ℚ) : Processor :=
  { p with sIntensity := p.sIntensity.setTarget (0.2 + intensity * 3.8) }

/-- `VocoderProcessor::setResonance` (VocoderProcessor.cpp:167-170). -/
def Processor.setResonance (p : Processor) (resonance : ℚ) : Processor :=
  { p with sResonance := p.sResonance.setTarget (10 + resonance * 15) }

/-- `VocoderProcessor::setNoiseThreshold` (VocoderProcessor.cpp:172-177):
unclamped affine map. -/
def Processor.setNoiseThreshold (p : Processor) (threshold : ℚ) :
    Processor :=
  { p with
    sNoiseThreshold := p.sNoiseThreshold.setTarget (0.005 + threshold * 0.495) }

/-- `VocoderProcessor::setMix` (VocoderProcessor.cpp:179-181): clamped to
`[0,1]`. -/
def Processor.setMix (p : Processor) (mix : ℚ) : Processor :=
  { p with sMix := p.sMix.setTarget (clampQ mix 0 1) }

/-- `VocoderProcessor::setDiffusion` (VocoderProcessor.cpp:183-186): clamped
to `[0,1]`. -/
def Processor.setDiffusion (p : Processor) (diffusion : ℚ) : Processor :=
  { p with sDiffusion := p.sDiffusion.setTarget (clampQ diffusion 0 1) }

/-! ### VocoderEngine (engines/VocoderEngine.cpp) -/

/-- `VocoderEngine` state (VocoderEngine.h): masterGain defaults to 0.8; the
modulator buffer starts empty with its read cursor at 0. -/
structure Engine where
  masterGain : ℚ
  processor : Processor
  modulatorBuffer : List ℚ
  modulatorReadIndex : ℕ
deriving Repr, DecidableEq

/-- `VocoderEngine` after construction and `prepare`
(VocoderEngine.cpp:5-20). -/
def Engine.init (O : MathOracle) (sampleRate : ℚ) : Engine :=
  { masterGain := 0.8, processor := Processor.init O sampleRate,
    modulatorBuffer := [], modulatorReadIndex := 0 }

/-- Modulator chunk fill of `VocoderEngine::process`
(VocoderEngine.cpp:25-45) for one frame: 0 when no modulator buffer is set,
else the sample under the cyclic read cursor. -/
def Engine.nextModSample (e : Engine) : ℚ × ℕ :=
  if e.modulatorBuffer.isEmpty then (0, e.modulatorReadIndex)
  else (e.modulatorBuffer.getD e.modulatorReadIndex 0,
        (e.modulatorReadIndex + 1) % e.modulatorBuffer.length)

/-- One frame of `VocoderEngine::process` (VocoderEngine.cpp:22-60): feed the
modulator chunk sample and the externally set carrier sample through the
processor, scale by the master gain, and duplicate to both stereo channels. -/
def Engine.processFrame (O : MathOracle) (e : Engine) (carrier : ℚ) :
    (ℚ × ℚ) × Engine :=
  let m := e.nextModSample
  let r := e.processor.processFrame O m.1 carrier
  ((r.1 * e.masterGain, r.1 * e.masterGain),
   { e with processor := r.2, modulatorReadIndex := m.2 })

/-- `VocoderEngine::updateParameters` (VocoderEngine.cpp:62-86). -/
def Engine.updateParameters (e : Engine) (s : SynthState) : Engine :=
  { e with
    masterGain := 0.5 + s.pressure * (3 - 0.5),
    processor :=
      ((((e.processor.setIntensity s.pressure).setResonance
        s.resonance).setNoiseThreshold s.viscosity).setMix
        s.turbulence).setDiffusion s.diffusion }

/-- `VocoderEngine::playNote` (VocoderEngine.cpp:88-92): constant -1. -/
def Engine.playNote (frequency velocity : ℚ) : ℤ := -1

end Vocoder

/-! ## NativeAudioEngine manager (NativeAudioEngine.cpp) -/

namespace Manager

/-- `initializeEngines` (NativeAudioEngine.cpp:27-36) fills every slot except
`ENGINE_ECHO_VESSEL` (slot 2), which stays a null `unique_ptr`.  Slot order
(NativeAudioEngine.h): 0 Criosfera, 1 Gearheart, 2 EchoVessel, 3 Vocoder,
4 Breitema. -/
def enginePresent (i : Fin 5) : Bool := decide (i.val ≠ 2)

/-- Result of `engines_[i]->playNote(frequency, velocity)` by slot: Criosfera
hands out its next fresh note id (CriosferaEngine.cpp:280-304), Gearheart and
Breitema return the constant 0 (GearheartEngine.cpp:394-396,
BreitemaEngine.cpp:238), the Vocoder returns -1 (VocoderEngine.cpp:88-92).
Slot 2 holds no engine, so its value is never consulted. -/
def enginePlayNoteResult (criosferaNextNoteId : ℤ) : Fin 5 → ℤ
  | 0 => criosferaNextNoteId
  | 1 => 0
  | 2 => 0
  | 3 => -1
  | 4 => 0

/-- Which slot's `playNote` actually allocates a voice and returns its id:
only Criosfera (slot 0) does; Gearheart, Breitema and the Vocoder allocate
nothing. -/
def acceptsNotes (i : Fin 5) : Bool := decide (i.val = 0)

/-- The slot `NativeAudioEngine::playNote` (NativeAudioEngine.cpp:311-327)
routes to: the selected slot when present and enabled, else the first present
and enabled slot in index order, else none. -/
def routedEngine (enabled : Fin 5 → Bool) (selected : Fin 5) :
    Option (Fin 5) :=
  if enginePresent selected && enabled selected then some selected
  else (List.finRange 5).find? (fun i => enginePresent i && enabled i)

/-- `NativeAudioEngine::playNote` (NativeAudioEngine.cpp:311-327): forward to
the routed slot's `playNote`, or return -1 when every slot is absent or
disabled. -/
def playNote (enabled : Fin 5 → Bool) (selected : Fin 5)
    (criosferaNextNoteId : ℤ) : ℤ :=
  match routedEngine enabled selected with
  | some i => enginePlayNoteResult criosferaNextNoteId i
  | none => -1

/-- UI-facing gear record (`gearStates_` in GearheartEngine.cpp): the ten
fields `getGearData` serialises. -/
structure GearUI where
  id : ℤ
  x : ℚ
  y : ℚ
  speed : ℚ
  isConnected : Bool
  material : ℤ
  radius : ℚ
  depth : ℤ
  teeth : ℤ
  angle : ℚ
deriving Repr, DecidableEq

/-- The ten floats `getGearData` writes for one gear, in destination order
(NativeAudioEngine.cpp:187-197). -/
def gearRecord (g : GearUI) : List ℚ :=
  [(g.id : ℚ), g.x, g.y, g.speed, if g.isConnected then 1 else 0,
   (g.material : ℚ), g.radius, (g.depth : ℚ), (g.teeth : ℚ), g.angle]

/-- Loop body of `NativeAudioEngine::getGearData`
(NativeAudioEngine.cpp:183-201): for each gear, stop if the next whole
10-float record would exceed `capacity`, else emit its writes at offset
`count * 10`.  Writes are `(index, value)` pairs into the destination. -/
def getGearDataGo (capacity : ℤ) : List GearUI → ℤ → List (ℤ × ℚ) × ℤ
  | [], count => ([], count)
  | g :: gs, count =>
    if (count + 1) * 10 > capacity then ([], count)
    else
      ((gearRecord g).enum.map (fun kv => (count * 10 + (kv.1 : ℤ), kv.2)) ++
        (getGearDataGo capacity gs (count + 1)).1,
       (getGearDataGo capacity gs (count + 1)).2)

/-- `NativeAudioEngine::getGearData` (NativeAudioEngine.cpp:169-202): the
writes performed and the returned gear count. -/
def getGearData (gears : List GearUI) (capacity : ℤ) : List (ℤ × ℚ) × ℤ :=
  getGearDataGo capacity gears 0

/-- Sequencer snapshot (`BreitemaEngine::BreitemaState`, BreitemaEngine.h). -/
structure BreitemaState where
  steps : Fin 16 → Bool
  currentStep : ℤ
  stepProbabilities : Fin 16 → ℚ
  fogDensity : ℚ
  fogMovement : ℚ
  fmDepth : ℚ
  rhythmMode : ℤ
  isPlaying : Bool

/-- The 35-float base block `getBreitemaData` writes at indices 0-34
(NativeAudioEngine.cpp:250-259): three scalars, sixteen step probabilities,
sixteen step-active flags. -/
def breitemaBaseWrites (st : BreitemaState) : List (ℤ × ℚ) :=
  [(0, (st.currentStep : ℚ)), (1, (st.rhythmMode : ℚ)),
   (2, if st.isPlaying then 1 else 0)]
  ++ (List.finRange 16).map
    (fun i => ((3 + i.val : ℤ), st.stepProbabilities i))
  ++ (List.finRange 16).map
    (fun i => ((19 + i.val : ℤ), if st.steps i then 1 else 0))

/-- `NativeAudioEngine::getBreitemaData` (NativeAudioEngine.cpp:240-270):
nothing and 0 when `capacity < 35`; the 35-float base layout and 35 when
`35 ≤ capacity < 38`; base plus the three visualisation extras and 38 when
`capacity ≥ 38`. -/
def getBreitemaData (st : BreitemaState) (capacity : ℤ) :
    List (ℤ × ℚ) × ℤ :=
  if capacity < 35 then ([], 0)
  else if 38 ≤ capacity then
    (breitemaBaseWrites st ++
      [(35, st.fogDensity), (36, st.fogMovement), (37, st.fmDepth)], 38)
  else (breitemaBaseWrites st, 35)

/-- One frame of the engine-mixing loop of `NativeAudioEngine::onAudioReady`
(NativeAudioEngine.cpp:366-419), before the master gain / soft-clip stage.
`engineOut i` is the stereo frame slot `i`'s `process` rendered into the
scratch buffer; `vocoderRender` is the stereo frame the vocoder renders when
fed the accumulated mono carrier.  Returns the carrier accumulator and the
output frame. -/
def mixFrame (enabled : Fin 5 → Bool) (engineOut : Fin 5 → ℚ × ℚ)
    (vocoderRender : ℚ → ℚ × ℚ) : ℚ × (ℚ × ℚ) :=
  let vocoderEnabled := enginePresent 3 && enabled 3
  let step := fun (acc : ℚ × (ℚ × ℚ)) (i : Fin 5) =>
    if i = (3 : Fin 5) then acc
    else if enginePresent i && enabled i then
      let l := (engineOut i).1
      let r := (engineOut i).2
      let monoMix := (l + r) * 0.5
      (acc.1 + monoMix,
       if vocoderEnabled then acc.2
       else (acc.2.1 + l, acc.2.2 + r))
    else acc
  let mixed := (List.finRange 5).foldl step (0, (0, 0))
  if vocoderEnabled then
    let v := vocoderRender mixed.1
    (mixed.1, (mixed.2.1 + v.1, mixed.2.2 + v.2))
  else mixed

/-- What one engine slot contributes to the mono carrier accumulator in a
mixed frame: its averaged stereo frame when the slot is present and enabled,
0 otherwise. -/
def carrierContrib (enabled : Fin 5 → Bool) (engineOut : Fin 5 → ℚ × ℚ)
    (i : Fin 5) : ℚ :=
  if enginePresent i && enabled i then
    ((engineOut i).1 + (engineOut i).2) * 0.5
  else 0

/-- What one engine slot contributes directly to the stereo output in a mixed
frame when the vocoder is disabled. -/
def directContrib (enabled : Fin 5 → Bool) (engineOut : Fin 5 → ℚ × ℚ)
    (i : Fin 5) : ℚ × ℚ :=
  if enginePresent i && enabled i then engineOut i else (0, 0)

end Manager

/-- C9 concrete instance: a voice mid-release at 48 kHz. -/
def releaseVoice : Criosfera.Voice :=
  { Criosfera.Voice.default with
      active := true, envelopeStage := 3, envelopeLevel := 0.5,
      releaseTime := 1 }

/-- Concrete inactive Gearheart voice for the C3 witness. -/
def gvW : Gearheart.GearVoice :=
  { active := false, type := Gearheart.InstrumentType.tom, frequency := 0,
    phase := 0, phase2 := 0, envLevel := 0, envDecay := 0, envTime := 0,
    noiseFilterState := (0, 0), gain := 1 }

/-- Concrete motor gear for the C3 witness. -/
def gearW : Gearheart.AudioGear :=
  { id := 0, speed := 1, isConnected := true, material := 0, radius := 100,
    depth := 0, angle := 0, lastRotation := 0 }

/-- Concrete inactive Breitema FM voice for the C3 witness. -/
def bvW : Breitema.FMVoice :=
  { active := false, carrierPhase := 0, modulatorPhase := 0, frequency := 0,
    envTime := 0, duration := 0, gain := 0 }

/-- Concrete gear record for the C8 witness. -/
def gW : Manager.GearUI :=
  { id := 0, x := 540, y := 1000, speed := 0.02, isConnected := true,
    material := 0, radius := 100, depth := 0, teeth := 14, angle := 0 }

/-- Concrete sequencer snapshot for the C8 witness. -/
def stW : Manager.BreitemaState :=
  { steps := fun _ => true, currentStep := 0,
    stepProbabilities := fun _ => 0.5, fogDensity := 0.5, fogMovement := 0.5,
    fmDepth := 200, rhythmMode := 0, isPlaying := true }

/-- The processor-state facts that hold as long as only silence has been fed
to the modulator input: the anti-rumble highpass filter's signal state is
zero, the global modulator envelope sits at zero, and the noise-threshold
smoother holds a positive value with a positive target (its one-pole
coefficient lying in `[0,1]`, as every `exp(-1/τ)` does). -/
def GateClosedInv (p : Vocoder.Processor) : Prop :=
  p.modHPF.x1 = 0 ∧ p.modHPF.x2 = 0 ∧ p.modHPF.y1 = 0 ∧ p.modHPF.y2 = 0 ∧
  p.globalMod.envelope = 0 ∧
  0 < p.sNoiseThreshold.current ∧ 0 < p.sNoiseThreshold.target ∧
  0 ≤ p.sNoiseThreshold.alpha ∧ p.sNoiseThreshold.alpha ≤ 1

/-- A vocoder processor state reached after `updateParameters` with
turbulence 0 (mix target 0) once the parameter smoothers have settled: never
any modulator input, default threshold 0.012, default Q 18, diffusion 0.5.
Smoother coefficients are taken at 0 (instant settling), the limiting value
of `exp(-1/τ)`. -/
def settledVocoder : Vocoder.Processor :=
  { sampleRate := 48000,
    bands := Vocoder.kBandFrequencies.map (fun f =>
      { modFilter := Biquad.zero, carFilter := Biquad.zero,
        envelope := { sampleRate := 48000, attack := 0, release := 0,
                      envelope := 0 },
        frequency := f }),
    modHPF := Biquad.zero,
    globalMod := { sampleRate := 48000, attack := 0, release := 0,
                   envelope := 0 },
    sIntensity := { alpha := 0, current := 1.5, target := 1.5 },
    sResonance := { alpha := 0, current := 18, target := 18 },
    sNoiseThreshold := { alpha := 0, current := 0.012, target := 0.012 },
    sMix := { alpha := 0, current := 0, target := 0 },
    sDiffusion := { alpha := 0, current := 0.5, target := 0.5 },
    lastRes := 18, lastDiff := 0.5 }

/-- The vocoder engine around `settledVocoder`: enabled with no modulator
buffer ever set, default master gain 0.8. -/
def silentVocoderEngine : Vocoder.Engine :=
  { masterGain := 0.8, processor := settledVocoder,
    modulatorBuffer := [], modulatorReadIndex := 0 }

/-! ## Helper lemmas -/

theorem clampQ_le_hi (v lo hi : ℚ) (h : lo ≤ hi) : clampQ v lo hi ≤ hi := by
  unfold clampQ
  split_ifs with h1 h2 <;> linarith

theorem lo_le_clampQ (v lo hi : ℚ) (h : lo ≤ hi) : lo ≤ clampQ v lo hi := by
  unfold clampQ
  split_ifs with h1 h2 <;> linarith

theorem findIdx?_first {α} {p : α → Bool} {l : List α} {i : ℕ}
    (h : l.findIdx? p = some i) :
    ∃ hlt : i < l.length, p (l.get ⟨i, hlt⟩) = true ∧
      ∀ j (hj : j < i), p (l.get ⟨j, hj.trans hlt⟩) = false := by
  obtain ⟨hlt, hp, hmin⟩ := List.findIdx?_eq_some_iff_getElem.mp h
  exact ⟨hlt, by simpa using hp, fun j hj => by simpa using hmin j hj⟩

theorem criosfera_stealIndex_lt_length (cv : List Criosfera.Voice)
    (hcv : cv ≠ []) : Criosfera.stealIndex cv < cv.length := by
  unfold Criosfera.stealIndex
  cases h1 : cv.findIdx? (fun v => !v.active) with
  | some i =>
    obtain ⟨hlt, -, -⟩ := findIdx?_first h1
    exact hlt
  | none =>
    cases h2 : cv.findIdx? (fun v => v.releasing) with
    | some i =>
      obtain ⟨hlt, -, -⟩ := findIdx?_first h2
      exact hlt
    | none => simpa using List.length_pos.mpr hcv

theorem gearheart_stealIndex_lt_length (gv : List Gearheart.GearVoice)
    (hgv : gv ≠ []) : Gearheart.stealIndex gv < gv.length := by
  unfold Gearheart.stealIndex
  cases h1 : gv.findIdx? (fun v => !v.active) with
  | some i =>
    obtain ⟨hlt, -, -⟩ := findIdx?_first h1
    exact hlt
  | none => simpa using List.length_pos.mpr hgv

theorem get_set_self' {α} (l : List α) (i : ℕ) (a : α)
    (h : i < (l.set i a).length) : (l.set i a).get ⟨i, h⟩ = a := by
  rw [List.get_eq_getElem, List.getElem_set_self]

theorem Gearheart.triggeredVoice_active (gear : Gearheart.AudioGear)
    (visc turb jn dp : ℚ) (v : Gearheart.GearVoice) :
    (Gearheart.triggeredVoice gear visc turb jn dp v).active = true := by
  unfold Gearheart.triggeredVoice
  split_ifs <;> rfl

/-! ## Claim theorems -/

/-- C5: in the step sequencer with rhythm mode free (0) and pressure 0.5,
the derived tempo is 120 BPM, and each `advanceStep` increases
`nextStepTimeSamples_` by exactly `sampleRate · 60 / 120 / 4` samples, where
4 is the free-mode steps-per-beat divisor. -/
theorem C5_free_mode_step_timing (s : SynthState) (hp : s.pressure = 0.5)
    (sampleRate nextStepTimeSamples : ℚ) (currentStep : ℤ) :
    (Breitema.updateParameters s).tempo = 120 ∧
    (Breitema.advanceStep 0 (Breitema.updateParameters s).tempo sampleRate
        nextStepTimeSamples currentStep).1 =
      nextStepTimeSamples + sampleRate * 60 / 120 / 4 := by
  have ht : (Breitema.updateParameters s).tempo = 120 := by
    simp [Breitema.updateParameters, hp]
    norm_num
  refine ⟨ht, ?_⟩
  rw [ht]
  simp [Breitema.advanceStep, Breitema.stepsPerBeat]
  ring

/-- C5 witness: concrete instance at 48 kHz from a fresh sequencer. -/
theorem C5_free_mode_step_timing_witness :
    (⟨0.5, 0.5, 0.5, 0.5, 0.5⟩ : SynthState).pressure = 0.5 ∧
    ((Breitema.updateParameters ⟨0.5, 0.5, 0.5, 0.5, 0.5⟩).tempo = 120 ∧
      (Breitema.advanceStep 0
          (Breitema.updateParameters ⟨0.5, 0.5, 0.5, 0.5, 0.5⟩).tempo
          48000 0 0).1 = 0 + 48000 * 60 / 120 / 4) :=
  ⟨rfl, C5_free_mode_step_timing ⟨0.5, 0.5, 0.5, 0.5, 0.5⟩ rfl 48000 0 0⟩

/-- C7 counterexample: the broadcast path clamps nothing — a pressure of 2
(outside `[0,1]`) reaches `BreitemaEngine::updateParameters` unclamped and
yields tempo 300 BPM, outside the 60–180 synthesis range and different from
the 180 BPM a clamped input would give.  This refutes "components outside
[0,1] are clamped to their valid synthesis range before being used". -/
theorem C7_counterexample :
    (Breitema.updateParameters ⟨2, 0.5, 0.5, 0.5, 0.5⟩).tempo = 300 ∧
    (Breitema.updateParameters ⟨clampQ 2 0 1, 0.5, 0.5, 0.5, 0.5⟩).tempo
      = 180 ∧
    ¬((Breitema.updateParameters ⟨2, 0.5, 0.5, 0.5, 0.5⟩).tempo ≤ 180) := by
  refine ⟨?_, ?_, ?_⟩ <;> · simp [Breitema.updateParameters, clampQ]; norm_num

/-- C7 amended: control inputs are never rejected, but only specific derived
parameters are clamped — Criosfera's filter cutoff to `[150, 12000]` and the
vocoder's wet/dry-mix and diffusion smoother targets to `[0,1]`; other
mappings (Breitema's tempo shown here) apply their affine formula to the raw
input with no clamping. -/
theorem C7_selective_clamping (s : SynthState) (p : Vocoder.Processor) :
    (150 ≤ (Criosfera.updateParameters s).filterCutoff ∧
      (Criosfera.updateParameters s).filterCutoff ≤ 12000) ∧
    (0 ≤ (p.setMix s.turbulence).sMix.target ∧
      (p.setMix s.turbulence).sMix.target ≤ 1) ∧
    (0 ≤ (p.setDiffusion s.diffusion).sDiffusion.target ∧
      (p.setDiffusion s.diffusion).sDiffusion.target ≤ 1) ∧
    (Breitema.updateParameters s).tempo = 60 + s.pressure * 120 := by
  refine ⟨⟨?_, ?_⟩, ⟨?_, ?_⟩, ⟨?_, ?_⟩, rfl⟩
  · exact lo_le_clampQ _ _ _ (by norm_num)
  · exact clampQ_le_hi _ _ _ (by norm_num)
  · exact lo_le_clampQ _ _ _ (by norm_num)
  · exact clampQ_le_hi _ _ _ (by norm_num)
  · exact lo_le_clampQ _ _ _ (by norm_num)
  · exact clampQ_le_hi _ _ _ (by norm_num)

/-- C9: one `processEnvelope` step keeps the envelope level in `[0,1]`
(given a positive sample rate, a positive release time and a level already in
`[0,1]`); in the release stage the level never increases, and whenever the
step lands the level on 0 the voice is deactivated. -/
theorem C9_envelope_invariant (sampleRate : ℚ) (hsr : 0 < sampleRate)
    (v : Criosfera.Voice) (hrt : 0 < v.releaseTime)
    (h0 : 0 ≤ v.envelopeLevel) (h1 : v.envelopeLevel ≤ 1) :
    (0 ≤ (Criosfera.processEnvelope sampleRate v).envelopeLevel ∧
      (Criosfera.processEnvelope sampleRate v).envelopeLevel ≤ 1) ∧
    (v.envelopeStage = 3 →
      (Criosfera.processEnvelope sampleRate v).envelopeLevel ≤
        v.envelopeLevel ∧
      ((Criosfera.processEnvelope sampleRate v).envelopeLevel = 0 →
        (Criosfera.processEnvelope sampleRate v).active = false)) := by
  have hst : 0 < sampleRate⁻¹ := by positivity
  have hat : 0 < sampleRate⁻¹ / (5e-2 : ℚ) := by positivity
  have hrel : 0 < sampleRate⁻¹ / v.releaseTime := by positivity
  constructor
  · unfold Criosfera.processEnvelope
    simp only [one_div]
    split_ifs <;> constructor <;> (try simp) <;> linarith
  · intro h3
    have hA : ¬v.envelopeStage = 1 := by omega
    have hS : ¬v.envelopeStage = 2 := by omega
    unfold Criosfera.processEnvelope
    simp only [one_div]
    rw [if_neg hA, if_neg hS, if_pos h3]
    by_cases hc : v.envelopeLevel - sampleRate⁻¹ / v.releaseTime ≤ 0
    · rw [if_pos hc]
      exact ⟨by simp; linarith, fun _ => rfl⟩
    · rw [if_neg hc]
      refine ⟨by simp; linarith, fun h => absurd h ?_⟩
      simp only [not_le] at hc
      simp
      intro hq
      linarith


/-- C9 witness: concrete release step at 48 kHz. -/
theorem C9_envelope_invariant_witness :
    ((0:ℚ) < 48000 ∧ 0 < releaseVoice.releaseTime ∧
      0 ≤ releaseVoice.envelopeLevel ∧ releaseVoice.envelopeLevel ≤ 1) ∧
    ((0 ≤ (Criosfera.processEnvelope 48000 releaseVoice).envelopeLevel ∧
      (Criosfera.processEnvelope 48000 releaseVoice).envelopeLevel ≤ 1) ∧
    (releaseVoice.envelopeStage = 3 →
      (Criosfera.processEnvelope 48000 releaseVoice).envelopeLevel ≤
        releaseVoice.envelopeLevel ∧
      ((Criosfera.processEnvelope 48000 releaseVoice).envelopeLevel = 0 →
        (Criosfera.processEnvelope 48000 releaseVoice).active = false))) :=
  ⟨⟨by norm_num, by norm_num [releaseVoice], by norm_num [releaseVoice],
      by norm_num [releaseVoice]⟩,
    C9_envelope_invariant 48000 (by norm_num) releaseVoice
      (by norm_num [releaseVoice]) (by norm_num [releaseVoice])
      (by norm_num [releaseVoice])⟩

/-- C10: `GearheartEngine::playNote` and `BreitemaEngine::playNote` return
the constant 0 (and, being constant functions on their arguments, allocate
nothing), `VocoderEngine::playNote` returns the constant -1, and a
manager-level `playNote` routed to any slot other than Criosfera returns 0 or
-1 — which is never the id Criosfera's own `playNote` hands out, since those
ids are `nextNoteId_ ≥ 1`. -/
theorem C10_noteless_engines (f vel : ℚ) (enabled : Fin 5 → Bool)
    (selected : Fin 5) (n : ℤ) (i : Fin 5)
    (hroute : Manager.routedEngine enabled selected = some i) (hi : i ≠ 0) :
    Gearheart.playNote f vel = 0 ∧
    Breitema.playNote f vel = 0 ∧
    Vocoder.Engine.playNote f vel = -1 ∧
    (Manager.playNote enabled selected n = 0 ∨
      Manager.playNote enabled selected n = -1) ∧
    (∀ (voices : List Criosfera.Voice) (m : ℤ) (f2 v2 n1 n2 visc : ℚ),
      1 ≤ m →
      Manager.playNote enabled selected n ≠
        (Criosfera.playNote voices m f2 v2 n1 n2 visc).2.1) := by
  have hres : Manager.playNote enabled selected n =
      Manager.enginePlayNoteResult n i := by
    unfold Manager.playNote
    rw [hroute]
  have hval : Manager.enginePlayNoteResult n i = 0 ∨
      Manager.enginePlayNoteResult n i = -1 := by
    fin_cases i <;> simp_all [Manager.enginePlayNoteResult]
  refine ⟨rfl, rfl, rfl, by rw [hres]; exact hval, ?_⟩
  intro voices m f2 v2 n1 n2 visc hm
  have hid : (Criosfera.playNote voices m f2 v2 n1 n2 visc).2.1 = m := rfl
  rw [hres, hid]
  rcases hval with h | h <;> rw [h] <;> omega

/-- C10 witness: Gearheart selected and enabled; the manager hands back 0. -/
theorem C10_noteless_engines_witness :
    (Manager.routedEngine (fun i => decide (i.val = 1)) 1 = some 1 ∧
      (1 : Fin 5) ≠ 0) ∧
    (Gearheart.playNote 440 0.8 = 0 ∧
     Breitema.playNote 440 0.8 = 0 ∧
     Vocoder.Engine.playNote 440 0.8 = -1 ∧
     (Manager.playNote (fun i => decide (i.val = 1)) 1 9 = 0 ∨
       Manager.playNote (fun i => decide (i.val = 1)) 1 9 = -1) ∧
     (∀ (voices : List Criosfera.Voice) (m : ℤ) (f2 v2 n1 n2 visc : ℚ),
       1 ≤ m →
       Manager.playNote (fun i => decide (i.val = 1)) 1 9 ≠
         (Criosfera.playNote voices m f2 v2 n1 n2 visc).2.1)) :=
  ⟨⟨by decide, by decide⟩,
    C10_noteless_engines 440 0.8 (fun i => decide (i.val = 1)) 1 9 1
      (by decide) (by decide)⟩

/-- C2 counterexample: with only the Gearheart slot enabled (an engine whose
`playNote` accepts no notes and returns 0), the manager's `playNote` returns
0, not -1 — refuting "returns -1 exactly when no enabled engine accepts
notes". -/
theorem C2_counterexample :
    ¬ (Manager.playNote (fun i => decide (i.val = 1)) 1 5 = -1 ↔
        ¬ ∃ i : Fin 5, (decide (i.val = 1)) = true ∧
          Manager.acceptsNotes i = true) := by
  decide

/-- C2 amended: `playNote` returns the routed slot's own `playNote` result,
where the routed slot is the selected one when present and enabled, else the
first present-and-enabled slot in index order; it returns -1 exactly when no
slot is present and enabled or when the routed slot is the vocoder (whose
`playNote` is the constant -1).  Engines that return 0 without accepting the
note (Gearheart, Breitema) make the manager return 0, not -1. -/
theorem C2_playNote_routing (enabled : Fin 5 → Bool) (selected : Fin 5)
    (n : ℤ) (hn : 1 ≤ n) :
    (Manager.playNote enabled selected n = -1 ↔
      ((∀ i : Fin 5, ¬(Manager.enginePresent i && enabled i) = true) ∨
        Manager.routedEngine enabled selected = some 3)) ∧
    ((Manager.enginePresent selected && enabled selected) = true →
      Manager.playNote enabled selected n =
        Manager.enginePlayNoteResult n selected) ∧
    ((Manager.enginePresent selected && enabled selected) = false →
      ∀ i : Fin 5,
        (List.finRange 5).find?
            (fun j => Manager.enginePresent j && enabled j) = some i →
        Manager.playNote enabled selected n =
          Manager.enginePlayNoteResult n i) := by
  by_cases hsel : (Manager.enginePresent selected && enabled selected) = true
  · have hroute : Manager.routedEngine enabled selected = some selected := by
      unfold Manager.routedEngine
      rw [if_pos hsel]
    have hres : Manager.playNote enabled selected n =
        Manager.enginePlayNoteResult n selected := by
      unfold Manager.playNote
      rw [hroute]
    refine ⟨?_, fun _ => hres, fun hcon => absurd hsel (by simp [hcon])⟩
    rw [hres, hroute]
    constructor
    · intro hm1
      right
      fin_cases selected <;>
        simp_all [Manager.enginePlayNoteResult]
    · rintro (hall | hsome)
      · exact absurd hsel (by simp [hall selected])
      · have hs3 : selected = 3 := Option.some.inj hsome
        subst hs3
        rfl
  · have hroute : Manager.routedEngine enabled selected =
        (List.finRange 5).find?
          (fun j => Manager.enginePresent j && enabled j) := by
      unfold Manager.routedEngine
      rw [if_neg hsel]
    refine ⟨?_, fun hcon => absurd hcon hsel, ?_⟩
    · cases hfind : (List.finRange 5).find?
          (fun j => Manager.enginePresent j && enabled j) with
      | none =>
        have hres : Manager.playNote enabled selected n = -1 := by
          unfold Manager.playNote
          rw [hroute, hfind]
        have hall : ∀ i : Fin 5,
            ¬(Manager.enginePresent i && enabled i) = true := by
          intro i
          have := List.find?_eq_none.mp hfind i (List.mem_finRange i)
          simp_all
        simp [hres, hall]
      | some j =>
        have hres : Manager.playNote enabled selected n =
            Manager.enginePlayNoteResult n j := by
          unfold Manager.playNote
          rw [hroute, hfind]
        have hj := List.find?_some hfind
        rw [hres, hroute, hfind]
        constructor
        · intro hm1
          right
          fin_cases j <;> simp_all [Manager.enginePlayNoteResult]
        · rintro (hall | hsome)
          · exact absurd hj (hall j)
          · have hj3 : j = 3 := Option.some.inj hsome
            subst hj3
            rfl
    · intro _ i hfind
      unfold Manager.playNote
      rw [hroute, hfind]

/-- C2 witness: only the vocoder enabled; routing falls back to slot 3 and
the result is -1 through the vocoder's own `playNote`. -/
theorem C2_playNote_routing_witness :
    ((1:ℤ) ≤ 7) ∧
    ((Manager.playNote (fun i => decide (i.val = 3)) 0 7 = -1 ↔
      ((∀ i : Fin 5,
          ¬(Manager.enginePresent i && decide (i.val = 3)) = true) ∨
        Manager.routedEngine (fun i => decide (i.val = 3)) 0 = some 3)) ∧
    ((Manager.enginePresent 0 && decide ((0 : Fin 5).val = 3)) = true →
      Manager.playNote (fun i => decide (i.val = 3)) 0 7 =
        Manager.enginePlayNoteResult 7 0) ∧
    ((Manager.enginePresent 0 && decide ((0 : Fin 5).val = 3)) = false →
      ∀ i : Fin 5,
        (List.finRange 5).find?
            (fun j => Manager.enginePresent j && decide (j.val = 3)) =
          some i →
        Manager.playNote (fun i => decide (i.val = 3)) 0 7 =
          Manager.enginePlayNoteResult 7 i)) :=
  ⟨by decide, C2_playNote_routing (fun i => decide (i.val = 3)) 0 7 (by decide)⟩

/-- C3 counterexample: a Breitema pool of 8 sounding voices.  The claim's
"allocation never fails" is false for the step sequencer: `playFMNote` leaves
the pool unchanged, no voice is stolen and the trigger is dropped. -/
theorem C3_counterexample :
    Breitema.playFMNote
        (List.replicate 8
          { active := true, carrierPhase := 0.1, modulatorPhase := 0.2,
            frequency := 999, envTime := 0.01, duration := 0.25,
            gain := 0.5 }) 110 120 =
      List.replicate 8
        { active := true, carrierPhase := 0.1, modulatorPhase := 0.2,
          frequency := 999, envTime := 0.01, duration := 0.25,
          gain := 0.5 } ∧
    ∀ v ∈ Breitema.playFMNote
        (List.replicate 8
          { active := true, carrierPhase := 0.1, modulatorPhase := 0.2,
            frequency := 999, envTime := 0.01, duration := 0.25,
            gain := 0.5 }) 110 120,
      v.frequency ≠ 110 := by
  refine ⟨rfl, ?_⟩
  decide

/-- C3 amended: Criosfera steals the first inactive voice, else the first
releasing voice, else slot 0, and its allocation never fails; Gearheart
steals the first inactive voice, else slot 0, and never fails; Breitema,
however, only ever activates the first inactive voice and silently drops the
trigger when every voice is active. -/
theorem C3_steal_order
    (cv : List Criosfera.Voice) (hcv : cv ≠ [])
    (gv : List Gearheart.GearVoice) (hgv : gv ≠ [])
    (bv : List Breitema.FMVoice)
    (gear : Gearheart.AudioGear) (nid : ℤ)
    (f vel n1 n2 visc turb jn dp freq tempo : ℚ) :
    ((∃ v ∈ cv, v.active = false) →
      ∃ h : Criosfera.stealIndex cv < cv.length,
        (cv.get ⟨Criosfera.stealIndex cv, h⟩).active = false ∧
        ∀ j (hj : j < Criosfera.stealIndex cv),
          (cv.get ⟨j, hj.trans h⟩).active = true) ∧
    ((∀ v ∈ cv, v.active = true) →
      (∃ v ∈ cv, v.releasing = true) →
      ∃ h : Criosfera.stealIndex cv < cv.length,
        (cv.get ⟨Criosfera.stealIndex cv, h⟩).releasing = true ∧
        ∀ j (hj : j < Criosfera.stealIndex cv),
          (cv.get ⟨j, hj.trans h⟩).releasing = false) ∧
    ((∀ v ∈ cv, v.active = true) → (∀ v ∈ cv, v.releasing = false) →
      Criosfera.stealIndex cv = 0) ∧
    (∃ h : Criosfera.stealIndex cv <
        ((Criosfera.playNote cv nid f vel n1 n2 visc).1).length,
      (((Criosfera.playNote cv nid f vel n1 n2 visc).1).get
          ⟨Criosfera.stealIndex cv, h⟩).active = true ∧
      (((Criosfera.playNote cv nid f vel n1 n2 visc).1).get
          ⟨Criosfera.stealIndex cv, h⟩).id = nid) ∧
    ((∃ v ∈ gv, v.active = false) →
      ∃ h : Gearheart.stealIndex gv < gv.length,
        (gv.get ⟨Gearheart.stealIndex gv, h⟩).active = false ∧
        ∀ j (hj : j < Gearheart.stealIndex gv),
          (gv.get ⟨j, hj.trans h⟩).active = true) ∧
    ((∀ v ∈ gv, v.active = true) → Gearheart.stealIndex gv = 0) ∧
    (∃ h : Gearheart.stealIndex gv <
        (Gearheart.triggerSound gv gear visc turb jn dp).length,
      ((Gearheart.triggerSound gv gear visc turb jn dp).get
          ⟨Gearheart.stealIndex gv, h⟩).active = true) ∧
    ((∃ v ∈ bv, v.active = false) →
      ∃ i, ∃ h : i < bv.length,
        (bv.get ⟨i, h⟩).active = false ∧
        (∀ j (hj : j < i), (bv.get ⟨j, hj.trans h⟩).active = true) ∧
        Breitema.playFMNote bv freq tempo =
          bv.set i { active := true, frequency := freq, carrierPhase := 0,
                     modulatorPhase := 0, envTime := 0,
                     duration := 60 / tempo / 2, gain := 0.5 }) ∧
    ((∀ v ∈ bv, v.active = true) → Breitema.playFMNote bv freq tempo = bv) := by
  refine ⟨?_, ?_, ?_, ?_, ?_, ?_, ?_, ?_, ?_⟩
  · intro hex
    have hex2 : ∃ x ∈ cv, (fun v : Criosfera.Voice => !v.active) x = true := by
      obtain ⟨v, hv, ha⟩ := hex
      exact ⟨v, hv, by simp [ha]⟩
    have hfind := List.findIdx?_eq_some_of_exists hex2
    obtain ⟨hlt, hp, hmin⟩ := findIdx?_first hfind
    have hsteal : Criosfera.stealIndex cv =
        cv.findIdx (fun v => !v.active) := by
      unfold Criosfera.stealIndex
      rw [hfind]
    rw [hsteal]
    exact ⟨hlt, by simpa using hp, fun j hj => by simpa using hmin j hj⟩
  · intro hall hex
    have hnone : cv.findIdx? (fun v => !v.active) = none :=
      List.findIdx?_eq_none_iff.mpr (fun x hx => by simp [hall x hx])
    have hex2 : ∃ x ∈ cv, (fun v : Criosfera.Voice => v.releasing) x = true := by
      obtain ⟨v, hv, hr⟩ := hex
      exact ⟨v, hv, hr⟩
    have hfind := List.findIdx?_eq_some_of_exists hex2
    obtain ⟨hlt, hp, hmin⟩ := findIdx?_first hfind
    have hsteal : Criosfera.stealIndex cv =
        cv.findIdx (fun v => v.releasing) := by
      unfold Criosfera.stealIndex
      rw [hnone, hfind]
    rw [hsteal]
    exact ⟨hlt, by simpa using hp, fun j hj => by simpa using hmin j hj⟩
  · intro hall hrel
    have hnone1 : cv.findIdx? (fun v => !v.active) = none :=
      List.findIdx?_eq_none_iff.mpr (fun x hx => by simp [hall x hx])
    have hnone2 : cv.findIdx? (fun v => v.releasing) = none :=
      List.findIdx?_eq_none_iff.mpr (fun x hx => by simp [hrel x hx])
    unfold Criosfera.stealIndex
    rw [hnone1, hnone2]
  · have hlt := criosfera_stealIndex_lt_length cv hcv
    have hlen : ((Criosfera.playNote cv nid f vel n1 n2 visc).1).length
        = cv.length := by
      unfold Criosfera.playNote
      simp
    refine ⟨by rw [hlen]; exact hlt, ?_, ?_⟩
    · exact congrArg (fun v : Criosfera.Voice => v.active)
        (get_set_self' cv (Criosfera.stealIndex cv) _ _)
    · exact congrArg (fun v : Criosfera.Voice => v.id)
        (get_set_self' cv (Criosfera.stealIndex cv) _ _)
  · intro hex
    have hex2 : ∃ x ∈ gv, (fun v : Gearheart.GearVoice => !v.active) x
        = true := by
      obtain ⟨v, hv, ha⟩ := hex
      exact ⟨v, hv, by simp [ha]⟩
    have hfind := List.findIdx?_eq_some_of_exists hex2
    obtain ⟨hlt, hp, hmin⟩ := findIdx?_first hfind
    have hsteal : Gearheart.stealIndex gv =
        gv.findIdx (fun v => !v.active) := by
      unfold Gearheart.stealIndex
      rw [hfind]
    rw [hsteal]
    exact ⟨hlt, by simpa using hp, fun j hj => by simpa using hmin j hj⟩
  · intro hall
    have hnone : gv.findIdx? (fun v => !v.active) = none :=
      List.findIdx?_eq_none_iff.mpr (fun x hx => by simp [hall x hx])
    unfold Gearheart.stealIndex
    rw [hnone]
  · have hlt := gearheart_stealIndex_lt_length gv hgv
    have hlen : (Gearheart.triggerSound gv gear visc turb jn dp).length
        = gv.length := by
      unfold Gearheart.triggerSound
      simp
    refine ⟨by rw [hlen]; exact hlt, ?_⟩
    exact (congrArg (fun v : Gearheart.GearVoice => v.active)
        (get_set_self' gv (Gearheart.stealIndex gv) _ _)).trans
      (Gearheart.triggeredVoice_active gear visc turb jn dp _)
  · intro hex
    have hex2 : ∃ x ∈ bv, (fun v : Breitema.FMVoice => !v.active) x
        = true := by
      obtain ⟨v, hv, ha⟩ := hex
      exact ⟨v, hv, by simp [ha]⟩
    have hfind := List.findIdx?_eq_some_of_exists hex2
    obtain ⟨hlt, hp, hmin⟩ := findIdx?_first hfind
    refine ⟨bv.findIdx (fun v => !v.active), hlt, by simpa using hp,
      fun j hj => by simpa using hmin j hj, ?_⟩
    unfold Breitema.playFMNote
    rw [hfind]
  · intro hall
    have hnone : bv.findIdx? (fun v => !v.active) = none :=
      List.findIdx?_eq_none_iff.mpr (fun x hx => by simp [hall x hx])
    unfold Breitema.playFMNote
    rw [hnone]


/-- C3 witness: singleton pools with an inactive voice each. -/
theorem C3_steal_order_witness :
    (([Criosfera.Voice.default] : List Criosfera.Voice) ≠ [] ∧
      ([gvW] : List Gearheart.GearVoice) ≠ []) ∧
    (((∃ v ∈ [Criosfera.Voice.default], v.active = false) →
      ∃ h : Criosfera.stealIndex [Criosfera.Voice.default] <
          [Criosfera.Voice.default].length,
        ([Criosfera.Voice.default].get
            ⟨Criosfera.stealIndex [Criosfera.Voice.default], h⟩).active
          = false ∧
        ∀ j (hj : j < Criosfera.stealIndex [Criosfera.Voice.default]),
          ([Criosfera.Voice.default].get ⟨j, hj.trans h⟩).active = true) ∧
    ((∀ v ∈ [Criosfera.Voice.default], v.active = true) →
      (∃ v ∈ [Criosfera.Voice.default], v.releasing = true) →
      ∃ h : Criosfera.stealIndex [Criosfera.Voice.default] <
          [Criosfera.Voice.default].length,
        ([Criosfera.Voice.default].get
            ⟨Criosfera.stealIndex [Criosfera.Voice.default], h⟩).releasing
          = true ∧
        ∀ j (hj : j < Criosfera.stealIndex [Criosfera.Voice.default]),
          ([Criosfera.Voice.default].get ⟨j, hj.trans h⟩).releasing
            = false) ∧
    ((∀ v ∈ [Criosfera.Voice.default], v.active = true) →
      (∀ v ∈ [Criosfera.Voice.default], v.releasing = false) →
      Criosfera.stealIndex [Criosfera.Voice.default] = 0) ∧
    (∃ h : Criosfera.stealIndex [Criosfera.Voice.default] <
        ((Criosfera.playNote [Criosfera.Voice.default] 1 440 0.8 0 0
            0.5).1).length,
      (((Criosfera.playNote [Criosfera.Voice.default] 1 440 0.8 0 0
            0.5).1).get
          ⟨Criosfera.stealIndex [Criosfera.Voice.default], h⟩).active
        = true ∧
      (((Criosfera.playNote [Criosfera.Voice.default] 1 440 0.8 0 0
            0.5).1).get
          ⟨Criosfera.stealIndex [Criosfera.Voice.default], h⟩).id = 1) ∧
    ((∃ v ∈ [gvW], v.active = false) →
      ∃ h : Gearheart.stealIndex [gvW] < [gvW].length,
        ([gvW].get ⟨Gearheart.stealIndex [gvW], h⟩).active = false ∧
        ∀ j (hj : j < Gearheart.stealIndex [gvW]),
          ([gvW].get ⟨j, hj.trans h⟩).active = true) ∧
    ((∀ v ∈ [gvW], v.active = true) → Gearheart.stealIndex [gvW] = 0) ∧
    (∃ h : Gearheart.stealIndex [gvW] <
        (Gearheart.triggerSound [gvW] gearW 0.5 0.5 0 1).length,
      ((Gearheart.triggerSound [gvW] gearW 0.5 0.5 0 1).get
          ⟨Gearheart.stealIndex [gvW], h⟩).active = true) ∧
    ((∃ v ∈ [bvW], v.active = false) →
      ∃ i, ∃ h : i < [bvW].length,
        ([bvW].get ⟨i, h⟩).active = false ∧
        (∀ j (hj : j < i), ([bvW].get ⟨j, hj.trans h⟩).active = true) ∧
        Breitema.playFMNote [bvW] 110 120 =
          [bvW].set i { active := true, frequency := 110, carrierPhase := 0,
                        modulatorPhase := 0, envTime := 0,
                        duration := 60 / 120 / 2, gain := 0.5 }) ∧
    ((∀ v ∈ [bvW], v.active = true) → Breitema.playFMNote [bvW] 110 120
      = [bvW])) :=
  ⟨⟨List.cons_ne_nil _ _, List.cons_ne_nil _ _⟩,
    C3_steal_order [Criosfera.Voice.default] (List.cons_ne_nil _ _)
      [gvW] (List.cons_ne_nil _ _) [bvW] gearW 1 440 0.8 0 0 0.5 0.5 0 1
      110 120⟩

/-- C6: in every mixed frame, every present-and-enabled non-vocoder engine
feeds its mono average into the carrier accumulator; when the vocoder is
enabled the stereo output is exactly the vocoder's rendering of that carrier
(the other engines contribute nothing directly), and when it is disabled the
stereo output is the plain sum of the enabled engines' stereo frames. -/
theorem C6_carrier_tap_routing (enabled : Fin 5 → Bool)
    (engineOut : Fin 5 → ℚ × ℚ) (vocoderRender : ℚ → ℚ × ℚ) :
    (Manager.mixFrame enabled engineOut vocoderRender).1 =
      Manager.carrierContrib enabled engineOut 0 +
      Manager.carrierContrib enabled engineOut 1 +
      Manager.carrierContrib enabled engineOut 2 +
      Manager.carrierContrib enabled engineOut 4 ∧
    (enabled 3 = true →
      (Manager.mixFrame enabled engineOut vocoderRender).2 =
        vocoderRender
          ((Manager.mixFrame enabled engineOut vocoderRender).1)) ∧
    (enabled 3 = false →
      (Manager.mixFrame enabled engineOut vocoderRender).2 =
        ((Manager.directContrib enabled engineOut 0).1 +
         (Manager.directContrib enabled engineOut 1).1 +
         (Manager.directContrib enabled engineOut 2).1 +
         (Manager.directContrib enabled engineOut 4).1,
         (Manager.directContrib enabled engineOut 0).2 +
         (Manager.directContrib enabled engineOut 1).2 +
         (Manager.directContrib enabled engineOut 2).2 +
         (Manager.directContrib enabled engineOut 4).2)) := by
  have hfr : List.finRange 5 = [0, 1, 2, 3, 4] := by decide
  have e0 : Manager.enginePresent 0 = true := by decide
  have e1 : Manager.enginePresent 1 = true := by decide
  have e2 : Manager.enginePresent 2 = false := by decide
  have e3 : Manager.enginePresent 3 = true := by decide
  have e4 : Manager.enginePresent 4 = true := by decide
  by_cases h0 : enabled 0 <;> by_cases h1 : enabled 1 <;>
    by_cases h2 : enabled 2 <;> by_cases h3 : enabled 3 <;>
    by_cases h4 : enabled 4 <;>
    · refine ⟨?_, fun h3e => ?_, fun h3e => ?_⟩ <;>
        simp_all [Manager.mixFrame, Manager.carrierContrib,
          Manager.directContrib, hfr, e0, e1, e2, e3, e4]

/-- C6 witness: Criosfera and the vocoder enabled; with the vocoder on, the
output frame is exactly the vocoder's rendering of the carrier. -/
theorem C6_carrier_tap_routing_witness :
    ((fun i : Fin 5 => decide (i.val = 0 ∨ i.val = 3)) 3 = true) ∧
    (Manager.mixFrame (fun i : Fin 5 => decide (i.val = 0 ∨ i.val = 3))
        (fun i => ((i.val : ℚ), 1)) (fun c => (c + 2, c + 3))).2 =
      (fun c : ℚ => (c + 2, c + 3))
        ((Manager.mixFrame (fun i : Fin 5 => decide (i.val = 0 ∨ i.val = 3))
            (fun i => ((i.val : ℚ), 1)) (fun c => (c + 2, c + 3))).1) :=
  ⟨by decide,
    (C6_carrier_tap_routing (fun i : Fin 5 => decide (i.val = 0 ∨ i.val = 3))
        (fun i => ((i.val : ℚ), 1)) (fun c => (c + 2, c + 3))).2.1
      (by decide)⟩

theorem gearRecord_length (g : Manager.GearUI) :
    (Manager.gearRecord g).length = 10 := rfl

theorem getGearDataGo_spec (capacity : ℤ) :
    ∀ (gears : List Manager.GearUI) (count : ℤ), 0 ≤ count →
      count ≤ capacity / 10 →
      ((Manager.getGearDataGo capacity gears count).2 =
        min (count + gears.length) (capacity / 10) ∧
       ((Manager.getGearDataGo capacity gears count).1.length : ℤ) =
        10 * ((Manager.getGearDataGo capacity gears count).2 - count)) ∧
      ∀ p ∈ (Manager.getGearDataGo capacity gears count).1,
        count * 10 ≤ p.1 ∧ p.1 < capacity := by
  intro gears
  induction gears with
  | nil =>
    intro count h0 hle
    refine ⟨⟨by simp [Manager.getGearDataGo]; omega,
      by simp [Manager.getGearDataGo]⟩, by simp [Manager.getGearDataGo]⟩
  | cons g gs ih =>
    intro count h0 hle
    by_cases hbr : (count + 1) * 10 > capacity
    · have hstop : Manager.getGearDataGo capacity (g :: gs) count =
          ([], count) := by
        conv_lhs => rw [Manager.getGearDataGo]
        rw [if_pos hbr]
      rw [hstop]
      have hdle : capacity / 10 ≤ count := by omega
      refine ⟨⟨by simp; omega, by simp⟩, by simp⟩
    · have hd10 : count + 1 ≤ capacity / 10 := by omega
      obtain ⟨⟨ih1, ih2⟩, ih3⟩ := ih (count + 1) (by omega) hd10
      have hgo : Manager.getGearDataGo capacity (g :: gs) count =
          ((Manager.gearRecord g).enum.map
              (fun kv => (count * 10 + (kv.1 : ℤ), kv.2)) ++
            (Manager.getGearDataGo capacity gs (count + 1)).1,
           (Manager.getGearDataGo capacity gs (count + 1)).2) := by
        conv_lhs => rw [Manager.getGearDataGo]
        rw [if_neg hbr]
      rw [hgo]
      refine ⟨⟨?_, ?_⟩, ?_⟩
      · simp only [ih1]
        simp
        omega
      · simp only [List.length_append, List.length_map, List.enum_length,
          gearRecord_length]
        push_cast
        rw [ih2, ih1]
        omega
      · intro p hp
        rcases List.mem_append.mp hp with h | h
        · obtain ⟨⟨k, v⟩, hkv, rfl⟩ := List.mem_map.mp h
          have hget := List.mem_enum_iff_getElem?.mp hkv
          have hk : k < 10 := by
            have h2 := List.getElem?_eq_some.mp hget
            simpa [gearRecord_length] using h2.1
          refine ⟨?_, ?_⟩ <;> simp <;> try omega
        · obtain ⟨hl, hr⟩ := ih3 p h
          exact ⟨by omega, hr⟩

theorem breitemaBaseWrites_length (st : Manager.BreitemaState) :
    (Manager.breitemaBaseWrites st).length = 35 := by
  simp [Manager.breitemaBaseWrites]

theorem breitemaBaseWrites_indices (st : Manager.BreitemaState) :
    ∀ p ∈ Manager.breitemaBaseWrites st, 0 ≤ p.1 ∧ p.1 < 35 := by
  intro p hp
  simp only [Manager.breitemaBaseWrites, List.append_assoc, List.mem_append,
    List.mem_cons, List.not_mem_nil, or_false, List.mem_map,
    List.mem_finRange, true_and] at hp
  rcases hp with (rfl | rfl | rfl) | ⟨i, rfl⟩ | ⟨i, rfl⟩
  · exact ⟨by norm_num, by norm_num⟩
  · exact ⟨by norm_num, by norm_num⟩
  · exact ⟨by norm_num, by norm_num⟩
  · have hi := i.isLt
    constructor <;> simp <;> omega
  · have hi := i.isLt
    constructor <;> simp <;> omega

/-- C8: the two read-back calls never write at or past index `capacity`:
`getGearData` writes whole 10-float records while they fit and returns the
number of gears written (`min (#gears) (capacity/10)`), and `getBreitemaData`
writes nothing for `capacity < 35`, the 35-float base block for
`35 ≤ capacity < 38`, and all 38 floats for `capacity ≥ 38`, returning the
count written. -/
theorem C8_readback_capacity (gears : List Manager.GearUI)
    (st : Manager.BreitemaState) (capacity : ℤ) (hcap : 0 ≤ capacity) :
    ((Manager.getGearData gears capacity).2 =
        min (gears.length : ℤ) (capacity / 10) ∧
      ((Manager.getGearData gears capacity).1.length : ℤ) =
        10 * (Manager.getGearData gears capacity).2 ∧
      ∀ p ∈ (Manager.getGearData gears capacity).1,
        0 ≤ p.1 ∧ p.1 < capacity) ∧
    (capacity < 35 → Manager.getBreitemaData st capacity = ([], 0)) ∧
    (35 ≤ capacity → capacity < 38 →
      (Manager.getBreitemaData st capacity).2 = 35 ∧
      (Manager.getBreitemaData st capacity).1.length = 35 ∧
      ∀ p ∈ (Manager.getBreitemaData st capacity).1,
        0 ≤ p.1 ∧ p.1 < capacity) ∧
    (38 ≤ capacity →
      (Manager.getBreitemaData st capacity).2 = 38 ∧
      (Manager.getBreitemaData st capacity).1.length = 38 ∧
      ∀ p ∈ (Manager.getBreitemaData st capacity).1,
        0 ≤ p.1 ∧ p.1 < capacity) := by
  have hdiv : 0 ≤ capacity / 10 := by omega
  obtain ⟨⟨h1, h2⟩, h3⟩ := getGearDataGo_spec capacity gears 0 le_rfl hdiv
  refine ⟨⟨?_, ?_, ?_⟩, ?_, ?_, ?_⟩
  · rw [Manager.getGearData, h1]
    simp
  · rw [Manager.getGearData, h2]
    ring
  · intro p hp
    obtain ⟨hl, hr⟩ := h3 p hp
    exact ⟨by omega, hr⟩
  · intro hlt
    unfold Manager.getBreitemaData
    rw [if_pos hlt]
  · intro hge hlt
    have hnot : ¬ capacity < 35 := by omega
    have hnot38 : ¬ 38 ≤ capacity := by omega
    unfold Manager.getBreitemaData
    rw [if_neg hnot, if_neg hnot38]
    refine ⟨rfl, breitemaBaseWrites_length st, ?_⟩
    intro p hp
    obtain ⟨hl, hr⟩ := breitemaBaseWrites_indices st p hp
    exact ⟨hl, by omega⟩
  · intro hge
    have hnot : ¬ capacity < 35 := by omega
    unfold Manager.getBreitemaData
    rw [if_neg hnot, if_pos hge]
    refine ⟨rfl, by simp [breitemaBaseWrites_length], ?_⟩
    intro p hp
    rcases List.mem_append.mp hp with h | h
    · obtain ⟨hl, hr⟩ := breitemaBaseWrites_indices st p h
      exact ⟨hl, by omega⟩
    · simp only [List.mem_cons, List.not_mem_nil, or_false] at h
      rcases h with rfl | rfl | rfl <;> exact ⟨by norm_num, by omega⟩


/-- C8 witness: five gears into capacity 36 (three whole records fit) and a
sequencer read-back into the same capacity (35-float base block). -/
theorem C8_readback_capacity_witness :
    ((0:ℤ) ≤ 36) ∧
    (((Manager.getGearData [gW, gW, gW, gW, gW] 36).2 =
        min (([gW, gW, gW, gW, gW] : List Manager.GearUI).length : ℤ)
          (36 / 10) ∧
      ((Manager.getGearData [gW, gW, gW, gW, gW] 36).1.length : ℤ) =
        10 * (Manager.getGearData [gW, gW, gW, gW, gW] 36).2 ∧
      ∀ p ∈ (Manager.getGearData [gW, gW, gW, gW, gW] 36).1,
        0 ≤ p.1 ∧ p.1 < 36) ∧
    ((36:ℤ) < 35 → Manager.getBreitemaData stW 36 = ([], 0)) ∧
    ((35:ℤ) ≤ 36 → (36:ℤ) < 38 →
      (Manager.getBreitemaData stW 36).2 = 35 ∧
      (Manager.getBreitemaData stW 36).1.length = 35 ∧
      ∀ p ∈ (Manager.getBreitemaData stW 36).1,
        0 ≤ p.1 ∧ p.1 < 36) ∧
    ((38:ℤ) ≤ 36 →
      (Manager.getBreitemaData stW 36).2 = 38 ∧
      (Manager.getBreitemaData stW 36).1.length = 38 ∧
      ∀ p ∈ (Manager.getBreitemaData stW 36).1,
        0 ≤ p.1 ∧ p.1 < 36)) :=
  ⟨by norm_num, C8_readback_capacity [gW, gW, gW, gW, gW] stW 36 (by norm_num)⟩

theorem gearStep_eq (speed sampleRate a₀ : ℚ) (last : ℤ) :
    Gearheart.gearStep speed sampleRate a₀ last =
      (a₀ + speed * 60 * (1 / sampleRate),
       ⌊(a₀ + speed * 60 * (1 / sampleRate)) / Gearheart.twoPi⌋,
       decide (⌊(a₀ + speed * 60 * (1 / sampleRate)) / Gearheart.twoPi⌋ ≠
         last)) := by
  unfold Gearheart.gearStep
  by_cases h : ⌊(a₀ + speed * 60 * (1 / sampleRate)) / Gearheart.twoPi⌋ ≠ last
  · simp only [if_pos h]
    rw [one_div] at h
    simp [h]
  · simp only [if_neg h]
    push_neg at h
    rw [one_div] at h
    simp [h]

theorem gearRun_invariant (speed sampleRate : ℚ)
    (hd : 0 < speed * 60 * (1 / sampleRate))
    (hlt : speed * 60 * (1 / sampleRate) < Gearheart.twoPi) :
    ∀ (n : ℕ) (a₀ : ℚ) (t₀ : ℕ),
      Gearheart.gearRun speed sampleRate n
        { angle := a₀, lastRotation := ⌊a₀ / Gearheart.twoPi⌋,
          triggers := t₀ } =
      { angle := a₀ + n * (speed * 60 * (1 / sampleRate)),
        lastRotation :=
          ⌊(a₀ + n * (speed * 60 * (1 / sampleRate))) / Gearheart.twoPi⌋,
        triggers := t₀ +
          (⌊(a₀ + n * (speed * 60 * (1 / sampleRate))) / Gearheart.twoPi⌋ -
            ⌊a₀ / Gearheart.twoPi⌋).toNat } := by
  have hP : (0:ℚ) < Gearheart.twoPi := by norm_num [Gearheart.twoPi]
  intro n
  induction n with
  | zero =>
    intro a₀ t₀
    simp [Gearheart.gearRun]
  | succ n ih =>
    intro a₀ t₀
    have hmono1 : ⌊a₀ / Gearheart.twoPi⌋ ≤
        ⌊(a₀ + speed * 60 * (1 / sampleRate)) / Gearheart.twoPi⌋ :=
      Int.floor_le_floor ((div_le_div_right hP).mpr (by linarith))
    have hupper : ⌊(a₀ + speed * 60 * (1 / sampleRate)) / Gearheart.twoPi⌋ ≤
        ⌊a₀ / Gearheart.twoPi⌋ + 1 := by
      have h1 : (a₀ + speed * 60 * (1 / sampleRate)) / Gearheart.twoPi ≤
          a₀ / Gearheart.twoPi + 1 := by
        rw [add_div]
        have : speed * 60 * (1 / sampleRate) / Gearheart.twoPi < 1 :=
          (div_lt_one hP).mpr hlt
        linarith
      calc ⌊(a₀ + speed * 60 * (1 / sampleRate)) / Gearheart.twoPi⌋
          ≤ ⌊a₀ / Gearheart.twoPi + 1⌋ := Int.floor_le_floor h1
        _ = ⌊a₀ / Gearheart.twoPi⌋ + 1 := Int.floor_add_one _
    have hnδ : (0:ℚ) ≤ (n : ℚ) * (speed * 60 * (1 / sampleRate)) :=
      mul_nonneg (Nat.cast_nonneg n) hd.le
    have hmono2 : ⌊(a₀ + speed * 60 * (1 / sampleRate)) / Gearheart.twoPi⌋ ≤
        ⌊(a₀ + speed * 60 * (1 / sampleRate) +
            (n : ℚ) * (speed * 60 * (1 / sampleRate))) / Gearheart.twoPi⌋ :=
      Int.floor_le_floor ((div_le_div_right hP).mpr (by linarith))
    have hcast : (((n : ℕ) + 1 : ℕ) : ℚ) = (n : ℚ) + 1 := by push_cast; ring
    have hflooreq :
        ⌊(a₀ + ((n : ℕ) + 1 : ℕ) * (speed * 60 * (1 / sampleRate))) /
            Gearheart.twoPi⌋ =
        ⌊(a₀ + speed * 60 * (1 / sampleRate) +
            (n : ℚ) * (speed * 60 * (1 / sampleRate))) / Gearheart.twoPi⌋ := by
      congr 1
      rw [hcast]
      ring
    by_cases hne : ⌊(a₀ + speed * 60 * (1 / sampleRate)) / Gearheart.twoPi⌋ ≠
        ⌊a₀ / Gearheart.twoPi⌋
    · have hrun : Gearheart.gearRun speed sampleRate (n + 1)
          { angle := a₀, lastRotation := ⌊a₀ / Gearheart.twoPi⌋,
            triggers := t₀ } =
          Gearheart.gearRun speed sampleRate n
            { angle := a₀ + speed * 60 * (1 / sampleRate),
              lastRotation :=
                ⌊(a₀ + speed * 60 * (1 / sampleRate)) / Gearheart.twoPi⌋,
              triggers := t₀ + 1 } := by
        conv_lhs => rw [Gearheart.gearRun]
        rw [gearStep_eq]
        have hne2 := hne
        rw [one_div] at hne2
        simp [hne2]
      rw [hrun, ih]
      simp only [Gearheart.GearRun.mk.injEq]
      refine ⟨by rw [hcast]; ring, by rw [hflooreq], ?_⟩
      rw [hflooreq]
      omega
    · push_neg at hne
      have hrun : Gearheart.gearRun speed sampleRate (n + 1)
          { angle := a₀, lastRotation := ⌊a₀ / Gearheart.twoPi⌋,
            triggers := t₀ } =
          Gearheart.gearRun speed sampleRate n
            { angle := a₀ + speed * 60 * (1 / sampleRate),
              lastRotation :=
                ⌊(a₀ + speed * 60 * (1 / sampleRate)) / Gearheart.twoPi⌋,
              triggers := t₀ } := by
        conv_lhs => rw [Gearheart.gearRun]
        rw [gearStep_eq]
        have hne2 := hne
        rw [one_div] at hne2
        simp [hne2]
      rw [hrun, ih]
      simp only [Gearheart.GearRun.mk.injEq]
      refine ⟨by rw [hcast]; ring, by rw [hflooreq], ?_⟩
      rw [hflooreq]
      omega

/-- C4 counterexample: the claim admits any speed with `|s| > 0.0001`, but
for a negative speed the trigger count cannot track `⌊s·60·T/2π⌋`, which is
negative: at `s = -1`, `R = 60`, a single sample fires one trigger (the floor
of the angle drops from 0 to -1) while `⌊s·60·T/2π⌋ = -1`, so count and claim
differ by 2. -/
theorem C4_counterexample :
    (Gearheart.gearRun (-1) 60 1
        { angle := 0, lastRotation := 0, triggers := 0 }).triggers = 1 ∧
    ⌊(-1 : ℚ) * 60 * (((1 : ℕ) : ℚ) / 60) / Gearheart.twoPi⌋ = -1 ∧
    (0.0001 : ℚ) < |(-1 : ℚ)| ∧
    ¬(|((Gearheart.gearRun (-1) 60 1
          { angle := 0, lastRotation := 0, triggers := 0 }).triggers : ℤ) -
        ⌊(-1 : ℚ) * 60 * (((1 : ℕ) : ℚ) / 60) / Gearheart.twoPi⌋| ≤ 1) := by
  have hfl : ⌊((0 : ℚ) + (-1) * 60 * (1 / 60)) / Gearheart.twoPi⌋ = -1 := by
    rw [Int.floor_eq_iff]
    constructor <;> norm_num [Gearheart.twoPi]
  have hfl2 : ⌊(-1 : ℚ) * 60 * (((1 : ℕ) : ℚ) / 60) / Gearheart.twoPi⌋
      = -1 := by
    rw [Int.floor_eq_iff]
    constructor <;> norm_num [Gearheart.twoPi]
  have hrun : (Gearheart.gearRun (-1) 60 1
      { angle := 0, lastRotation := 0, triggers := 0 }).triggers = 1 := by
    conv_lhs => rw [Gearheart.gearRun]
    rw [gearStep_eq]
    simp only [hfl]
    simp [Gearheart.gearRun]
  refine ⟨hrun, hfl2, by norm_num, ?_⟩
  rw [hrun, hfl2]
  norm_num

/-- C4 amended: for a connected gear at constant positive speed `s` (with
`s·60/R` below one revolution per sample), the angle advances by `s·60/R`
every sample and the number of triggers over `n` samples is exactly
`⌊s·60·(n/R)/2π⌋` — `n/R` being the elapsed time `T` in seconds, so the count
equals `⌊s·60·T/2π⌋` (and in particular is within ±1 of it).  For negative
speeds the count is the magnitude of the (negative) floor, not the floor
itself. -/
theorem C4_gear_trigger_count (speed sampleRate : ℚ) (n : ℕ)
    (hsp : 0.0001 < speed) (hR : 0 < sampleRate)
    (hlt : speed * 60 * (1 / sampleRate) < Gearheart.twoPi) :
    (Gearheart.gearRun speed sampleRate n
        { angle := 0, lastRotation := 0, triggers := 0 }).angle =
      n * (speed * 60 * (1 / sampleRate)) ∧
    (Gearheart.gearRun speed sampleRate n
        { angle := 0, lastRotation := 0, triggers := 0 }).triggers =
      (⌊speed * 60 * ((n : ℚ) / sampleRate) / Gearheart.twoPi⌋).toNat := by
  have hspos : 0 < speed := by linarith
  have hd : 0 < speed * 60 * (1 / sampleRate) :=
    mul_pos (mul_pos hspos (by norm_num)) (by positivity)
  have h0 : ⌊(0:ℚ) / Gearheart.twoPi⌋ = 0 := by simp
  have hinv := gearRun_invariant speed sampleRate hd hlt n 0 0
  rw [h0] at hinv
  rw [hinv]
  constructor
  · simp
  · have harg : (0:ℚ) + (n : ℚ) * (speed * 60 * (1 / sampleRate)) =
        speed * 60 * ((n : ℚ) / sampleRate) := by ring
    simp only [harg, sub_zero, zero_add]

/-- C4 witness: the default motor speed 0.02 rad/frame at 48 kHz over 48000
samples (one second). -/
theorem C4_gear_trigger_count_witness :
    ((0.0001 : ℚ) < 0.02 ∧ (0 : ℚ) < 48000 ∧
      (0.02 : ℚ) * 60 * (1 / 48000) < Gearheart.twoPi) ∧
    ((Gearheart.gearRun 0.02 48000 48000
        { angle := 0, lastRotation := 0, triggers := 0 }).angle =
      (48000 : ℕ) * ((0.02 : ℚ) * 60 * (1 / 48000)) ∧
    (Gearheart.gearRun 0.02 48000 48000
        { angle := 0, lastRotation := 0, triggers := 0 }).triggers =
      (⌊(0.02 : ℚ) * 60 * (((48000 : ℕ) : ℚ) / 48000) /
          Gearheart.twoPi⌋).toNat) :=
  ⟨⟨by norm_num, by norm_num, by norm_num [Gearheart.twoPi]⟩,
    C4_gear_trigger_count 0.02 48000 48000 (by norm_num) (by norm_num)
      (by norm_num [Gearheart.twoPi])⟩

theorem smoother_pos {a c t : ℚ} (ha0 : 0 ≤ a) (ha1 : a ≤ 1)
    (hc : 0 < c) (ht : 0 < t) : 0 < a * c + (1 - a) * t := by
  rcases eq_or_lt_of_le ha1 with h1 | h1
  · subst h1
    nlinarith
  · nlinarith [mul_nonneg ha0 hc.le,
      mul_pos (by linarith : (0:ℚ) < 1 - a) ht]

theorem masterGate_closed {th : ℚ} (hth : 0 < th) :
    Vocoder.masterGate 0 th = 0 := by
  unfold Vocoder.masterGate
  rw [if_pos (by linarith)]

theorem hpf_zero_step (f : Biquad) (hx1 : f.x1 = 0) (hx2 : f.x2 = 0)
    (hy1 : f.y1 = 0) (hy2 : f.y2 = 0) (m : ℚ) (hm : m = 0) :
    f.processB m = (0, { f with x1 := 0, x2 := 0, y1 := 0, y2 := 0 }) := by
  unfold Biquad.processB
  rw [hm, hx1, hx2, hy1, hy2]
  norm_num

theorem envFollower_zero_step (e : EnvelopeFollower)
    (he : e.envelope = 0) : e.processE 0 = (0, { e with envelope := 0 }) := by
  unfold EnvelopeFollower.processE
  rw [he]
  norm_num

theorem vocoder_gateClosed_frame (O : MathOracle) (p : Vocoder.Processor)
    (hinv : GateClosedInv p) (car : ℚ) :
    Vocoder.masterGate
        ((p.globalMod.processE ((p.modHPF.processB (0 * 4)).1)).1)
        (p.sNoiseThreshold.processS).1 = 0 ∧
    (p.processFrame O 0 car).1 =
      Vocoder.softClip08 O
        (car * (Vocoder.wetDryGains O (p.sMix.processS).1).2) ∧
    GateClosedInv (p.processFrame O 0 car).2 := by
  obtain ⟨hx1, hx2, hy1, hy2, he, hc, ht, ha0, ha1⟩ := hinv
  have hhpf := hpf_zero_step p.modHPF hx1 hx2 hy1 hy2 ((0:ℚ) * 4) (by ring)
  have hgm := envFollower_zero_step p.globalMod he
  have hthpos : 0 < (p.sNoiseThreshold.processS).1 := by
    simp only [ParameterSmoother.processS]
    exact smoother_pos ha0 ha1 hc ht
  have hgate := masterGate_closed hthpos
  refine ⟨?_, ?_, ?_⟩
  · rw [hhpf]
    simp only
    rw [hgm]
    simp only
    exact hgate
  · unfold Vocoder.Processor.processFrame
    simp only [hhpf, hgm]
    rw [hgate]
    simp [Vocoder.softClip08]
  · unfold Vocoder.Processor.processFrame
    simp only [hhpf, hgm]
    rw [hgate]
    simp only [gt_iff_lt, lt_irrefl, if_false]
    refine ⟨by simp, by simp, by simp, by simp, by simp, ?_, ?_, ?_, ?_⟩ <;>
      simp [ParameterSmoother.processS] <;>
      try exact smoother_pos ha0 ha1 hc ht
    · exact ht
    · exact ha0
    · exact ha1

/-- C1 counterexample: the vocoder engine is enabled with no modulator
buffer ever set (so the modulator is silent well past 100 ms and the
smoothers have settled), yet with the mix (turbulence) parameter at 0 a
carrier sample of 1/2 comes straight through: the master gate is 0, but the
per-frame output is 2/5 = 0.5·0.8 (carrier × dry gain × master gain), not at
or near silence. -/
theorem C1_counterexample :
    Vocoder.masterGate
        ((settledVocoder.globalMod.processE
          ((settledVocoder.modHPF.processB (0 * 4)).1)).1)
        (settledVocoder.sNoiseThreshold.processS).1 = 0 ∧
    ((silentVocoderEngine.processFrame zeroOracle (1/2)).1).1 = 2/5 ∧
    (2/5 : ℚ) ≠ 0 := by
  have hcur : settledVocoder.sNoiseThreshold.current = 0.012 := rfl
  have htar : settledVocoder.sNoiseThreshold.target = 0.012 := rfl
  have halp : settledVocoder.sNoiseThreshold.alpha = 0 := rfl
  have hinv : GateClosedInv settledVocoder :=
    ⟨rfl, rfl, rfl, rfl, rfl, by rw [hcur]; norm_num,
     by rw [htar]; norm_num, halp.ge, by rw [halp]; norm_num⟩
  obtain ⟨hg, hout, -⟩ :=
    vocoder_gateClosed_frame zeroOracle settledVocoder hinv (1/2)
  have hmix : (settledVocoder.sMix.processS).1 = 0 := by
    have hsm : settledVocoder.sMix =
        { alpha := 0, current := 0, target := 0 } := rfl
    rw [hsm]
    norm_num [ParameterSmoother.processS]
  have hwd : Vocoder.wetDryGains zeroOracle 0 = (0, 1) := by
    unfold Vocoder.wetDryGains
    norm_num
  rw [hmix, hwd] at hout
  have hsc : Vocoder.softClip08 zeroOracle ((1:ℚ)/2 * 1) = 1/2 := by
    unfold Vocoder.softClip08
    norm_num
  refine ⟨hg, ?_, by norm_num⟩
  have hnm : silentVocoderEngine.nextModSample = (0, 0) := rfl
  unfold Vocoder.Engine.processFrame
  simp only [hnm]
  have hproc : silentVocoderEngine.processor = settledVocoder := rfl
  have hmg : silentVocoderEngine.masterGain = 0.8 := rfl
  rw [hproc, hmg, hout, hsc]
  norm_num

/-- C1 amended: with the vocoder enabled and no modulator buffer set, every
processed frame has master gate 0 and the vocoded (wet) signal contributes
nothing — but the raw carrier still reaches the output through the dry
branch of the wet/dry blend: the frame output is exactly
`softClip(carrier · dryGain(mix)) · masterGain`, where the dry gain is 1 for
mix < 0.02, `(1-mix)^1.5` in between, and 0 only for mix > 0.98.  The
silent-modulator state is preserved frame to frame, so this holds for every
frame of a run, not just the first. -/
theorem C1_vocoder_gate_closed (O : MathOracle) (e : Vocoder.Engine)
    (hbuf : e.modulatorBuffer = []) (hinv : GateClosedInv e.processor)
    (car : ℚ) :
    Vocoder.masterGate
        ((e.processor.globalMod.processE
          ((e.processor.modHPF.processB (0 * 4)).1)).1)
        (e.processor.sNoiseThreshold.processS).1 = 0 ∧
    ((e.processFrame O car).1).1 =
      Vocoder.softClip08 O
        (car * (Vocoder.wetDryGains O (e.processor.sMix.processS).1).2) *
        e.masterGain ∧
    ((e.processFrame O car).1).2 = ((e.processFrame O car).1).1 ∧
    GateClosedInv (e.processFrame O car).2.processor ∧
    (e.processFrame O car).2.modulatorBuffer = [] := by
  obtain ⟨hg, hout, hinv2⟩ := vocoder_gateClosed_frame O e.processor hinv car
  have hnm : e.nextModSample = (0, e.modulatorReadIndex) := by
    unfold Vocoder.Engine.nextModSample
    rw [hbuf]
    rfl
  refine ⟨hg, ?_, ?_, ?_, ?_⟩
  · unfold Vocoder.Engine.processFrame
    simp only [hnm]
    rw [hout]
  · rfl
  · unfold Vocoder.Engine.processFrame
    simp only [hnm]
    exact hinv2
  · unfold Vocoder.Engine.processFrame
    exact hbuf

/-- C1 witness: a freshly prepared vocoder engine at 48 kHz (built with the
degenerate oracle) and carrier 1. -/
theorem C1_vocoder_gate_closed_witness :
    ((Vocoder.Engine.init zeroOracle 48000).modulatorBuffer = [] ∧
      GateClosedInv (Vocoder.Engine.init zeroOracle 48000).processor) ∧
    (Vocoder.masterGate
        (((Vocoder.Engine.init zeroOracle 48000).processor.globalMod.processE
          (((Vocoder.Engine.init zeroOracle
            48000).processor.modHPF.processB (0 * 4)).1)).1)
        ((Vocoder.Engine.init zeroOracle
          48000).processor.sNoiseThreshold.processS).1 = 0 ∧
    (((Vocoder.Engine.init zeroOracle 48000).processFrame zeroOracle
        1).1).1 =
      Vocoder.softClip08 zeroOracle
        (1 * (Vocoder.wetDryGains zeroOracle
          ((Vocoder.Engine.init zeroOracle
            48000).processor.sMix.processS).1).2) *
        (Vocoder.Engine.init zeroOracle 48000).masterGain ∧
    (((Vocoder.Engine.init zeroOracle 48000).processFrame zeroOracle
        1).1).2 =
      (((Vocoder.Engine.init zeroOracle 48000).processFrame zeroOracle
        1).1).1 ∧
    GateClosedInv ((Vocoder.Engine.init zeroOracle 48000).processFrame
      zeroOracle 1).2.processor ∧
    ((Vocoder.Engine.init zeroOracle 48000).processFrame zeroOracle
      1).2.modulatorBuffer = []) :=
  ⟨⟨rfl,
    ⟨rfl, rfl, rfl, rfl, rfl,
      by rw [show (Vocoder.Engine.init zeroOracle
          48000).processor.sNoiseThreshold.current = 0.012 from rfl]
         norm_num,
      by rw [show (Vocoder.Engine.init zeroOracle
          48000).processor.sNoiseThreshold.target = 0.012 from rfl]
         norm_num,
      (show (Vocoder.Engine.init zeroOracle
          48000).processor.sNoiseThreshold.alpha = 0 from rfl).ge,
      by rw [show (Vocoder.Engine.init zeroOracle
          48000).processor.sNoiseThreshold.alpha = 0 from rfl]
         norm_num⟩⟩,
    C1_vocoder_gate_closed zeroOracle (Vocoder.Engine.init zeroOracle 48000)
      rfl
      ⟨rfl, rfl, rfl, rfl, rfl,
        by rw [show (Vocoder.Engine.init zeroOracle
            48000).processor.sNoiseThreshold.current = 0.012 from rfl]
           norm_num,
        by rw [show (Vocoder.Engine.init zeroOracle
            48000).processor.sNoiseThreshold.target = 0.012 from rfl]
           norm_num,
        (show (Vocoder.Engine.init zeroOracle
            48000).processor.sNoiseThreshold.alpha = 0 from rfl).ge,
        by rw [show (Vocoder.Engine.init zeroOracle
            48000).processor.sNoiseThreshold.alpha = 0 from rfl]
           norm_num⟩
      1⟩

end FantaGal
